import Mathlib

/-!
# parking-backend: the retry wrapper around outbound gateway calls

A shallow embedding of `retryBraintreeCall` as it stands in `src/index.js`
(namespace `Live`) and in `src/index-backup.js` (namespace `Backup`).

The wrapper is asynchronous JavaScript.  One call of it is a single
sequential thread of control (every suspension point is an `await`), so it is
embedded as a state-passing function over an explicit run state: a
millisecond clock, the invocations of the operation, the backoff delays that
were awaited and the timers that are scheduled and have not fired.  The
operation `fn` is given by the way its successive invocations settle.

Numbers are mathematical integers: `initialDelayMs * Math.pow(2, i)` is exact
in JavaScript as long as the product stays below `2^53`.
-/

namespace ParkingBackend

/-! ## Data model -/

/-- A value thrown by the operation or by the wrapper: an object with a
`message` string and an optional `type` tag (absent on a plain `Error`). -/
structure JsError where
  message : String
  type : Option String
deriving DecidableEq, Repr

/-- How one invocation of `fn()` settles: it resolves with a value or rejects
with an error `after` milliseconds, or it never settles. -/
inductive Settle (α : Type) where
  | resolves (value : α) (after : Nat)
  | rejects (error : JsError) (after : Nat)
  | never
deriving DecidableEq, Repr

/-- The two places of the wrapper that call `setTimeout`. -/
inductive TimerKind where
  | timeout
  | backoff
deriving DecidableEq, Repr

/-- A scheduled timer that has not fired: who scheduled it (the loop index
`i`) and the clock value at which it fires. -/
structure Timer where
  kind : TimerKind
  index : Nat
  due : Nat
deriving DecidableEq, Repr

/-- One call `fn()`: the attempt number printed by the wrapper (`i + 1`) and
the clock value at which the call was made. -/
structure Invocation where
  attempt : Nat
  startedAt : Nat
deriving DecidableEq, Repr

/-- The observable state of one run of the wrapper. -/
structure Run where
  now : Nat
  invocations : List Invocation
  waits : List Int
  timers : List Timer
deriving DecidableEq, Repr

/-- The way an `async` function settles: `return result`, or `throw` of a
value, where `none` is the JavaScript value `undefined`. -/
inductive Outcome (α : Type) where
  | returned (value : α)
  | thrown (error : Option JsError)
deriving DecidableEq, Repr

/-- The settled wrapper call: the outcome and the run state at that moment. -/
structure Settled (α : Type) where
  outcome : Outcome α
  run : Run
deriving DecidableEq, Repr

/-! ## The JavaScript runtime pieces the wrapper uses -/

/-- Does `text` begin with `pat`? -/
def startsWith : List Char → List Char → Bool
  | [], _ => true
  | _ :: _, [] => false
  | p :: ps, c :: cs => p == c && startsWith ps cs

/-- Substring search over characters. -/
def includesChars (pat : List Char) : List Char → Bool
  | [] => startsWith pat []
  | c :: cs => startsWith pat (c :: cs) || includesChars pat cs

/-- The method `String.prototype.includes`, for the ASCII patterns the wrapper
searches for. -/
def includes (s pat : String) : Bool :=
  includesChars pat.data s.data

/-- The delay Node.js gives a timer: a delay outside `1 .. 2^31 - 1` is
replaced by `1`. -/
def timerDelay (ms : Int) : Nat :=
  if 1 ≤ ms ∧ ms ≤ 2147483647 then ms.toNat else 1

/-- The call `setTimeout(callback, ms)`: one more pending timer. -/
def setTimeout (s : Run) (kind : TimerKind) (i : Nat) (ms : Int) : Run :=
  { s with timers := s.timers ++ [{ kind := kind, index := i, due := s.now + timerDelay ms }] }

/-- The clock moves on by `ms`; every timer that is due by then fires and is
no longer pending.  No timer is ever removed in another way: neither version
of the wrapper calls `clearTimeout`. -/
def advance (s : Run) (ms : Nat) : Run :=
  { s with now := s.now + ms, timers := s.timers.filter (fun t => decide (s.now + ms < t.due)) }

/-- The per-attempt limit, the literal `90000` of both versions. -/
def attemptTimeoutMs : Nat := 90000

/-- What `await Promise.race([fn(), timeoutPromise])` yields: the operation's
own result when it settles before the timer fires, the timer's rejection
otherwise. -/
def raceResult {α : Type} (timeoutMessage : String) : Settle α → Except JsError α
  | .resolves v d =>
    if d < attemptTimeoutMs then .ok v else .error { message := timeoutMessage, type := none }
  | .rejects e d =>
    if d < attemptTimeoutMs then .error e else .error { message := timeoutMessage, type := none }
  | .never => .error { message := timeoutMessage, type := none }

/-- The time an attempt takes: until the operation settles, at most until the
timeout timer fires. -/
def raceDuration {α : Type} : Settle α → Nat
  | .resolves _ d => if d < attemptTimeoutMs then d else attemptTimeoutMs
  | .rejects _ d => if d < attemptTimeoutMs then d else attemptTimeoutMs
  | .never => attemptTimeoutMs

/-- The body of the `try` block up to the end of the `await`: the timeout
timer is scheduled first, then `fn()` is called, then the race is awaited. -/
def attemptRace {α : Type} (s : Run) (i : Nat) (o : Settle α) : Run :=
  let s1 := setTimeout s TimerKind.timeout i 90000
  let s2 := { s1 with invocations := s1.invocations ++ [{ attempt := i + 1, startedAt := s1.now }] }
  advance s2 (raceDuration o)

/-- The statement `await new Promise(resolve => setTimeout(resolve, delay))`. -/
def backoffWait (s : Run) (i : Nat) (delay : Int) : Run :=
  let s1 := setTimeout s TimerKind.backoff i delay
  let s2 := { s1 with waits := s1.waits ++ [delay] }
  advance s2 (timerDelay delay)

/-- The run state at the start of a call. -/
def Run.init : Run :=
  { now := 0, invocations := [], waits := [], timers := [] }

/-! ## `retryBraintreeCall` of `src/index.js` -/

namespace Live

/-- The `for` loop of `retryBraintreeCall` in `src/index.js`, from loop index
`i` on, followed by the trailing `throw lastError`.  `fuel` bounds the number
of iterations; `none` means the fuel ran out. -/
def loop {α : Type} (fn : Nat → Settle α) (maxRetries initialDelayMs : Int) :
    Nat → Nat → Run → Option JsError → Option (Settled α)
  | 0, _, _, _ => none
  | fuel + 1, i, s, lastError =>
    if (i : Int) < maxRetries then
      let s1 := attemptRace s i (fn i)
      match raceResult "Request timed out" (fn i) with
      | .ok result => some { outcome := .returned result, run := s1 }
      | .error error =>
        let isLastAttempt := decide ((i : Int) = maxRetries - 1)
        if isLastAttempt then
          some { outcome := .thrown (some error), run := s1 }
        else
          let delay := initialDelayMs * 2 ^ i
          loop fn maxRetries initialDelayMs fuel (i + 1) (backoffWait s1 i delay) (some error)
    else
      some { outcome := .thrown lastError, run := s }

/-- The function `retryBraintreeCall(fn, maxRetries, initialDelayMs)` of
`src/index.js`.  The loop runs at most `maxRetries` times, so
`maxRetries + 1` units of fuel reach the end of it. -/
def retryBraintreeCall {α : Type} (fn : Nat → Settle α) (maxRetries initialDelayMs : Int) :
    Option (Settled α) :=
  loop fn maxRetries initialDelayMs (maxRetries.toNat + 1) 0 Run.init none

end Live

/-! ## `retryBraintreeCall` of `src/index-backup.js` -/

namespace Backup

/-- The classification `isTimeout` of `src/index-backup.js`:
`error.message && (error.message.includes('timeout') ||
error.message.includes('timed out') || error.type === 'unexpectedError')`,
as the truth value the `if (!isTimeout)` tests.  The empty string is falsy. -/
def isTimeout (error : JsError) : Bool :=
  (error.message != "") &&
    (includes error.message "timeout" ||
      includes error.message "timed out" ||
      error.type == some "unexpectedError")

/-- The `for` loop of `retryBraintreeCall` in `src/index-backup.js`, from loop
index `i` on, followed by the trailing `throw lastError`. -/
def loop {α : Type} (fn : Nat → Settle α) (maxRetries initialDelayMs : Int) :
    Nat → Nat → Run → Option JsError → Option (Settled α)
  | 0, _, _, _ => none
  | fuel + 1, i, s, lastError =>
    if (i : Int) < maxRetries then
      let s1 := attemptRace s i (fn i)
      match raceResult "Request timed out after 90 seconds" (fn i) with
      | .ok result => some { outcome := .returned result, run := s1 }
      | .error error =>
        let isLastAttempt := decide ((i : Int) = maxRetries - 1)
        if isLastAttempt then
          some { outcome := .thrown (some error), run := s1 }
        else if !isTimeout error then
          some { outcome := .thrown (some error), run := s1 }
        else
          let delay := initialDelayMs * 2 ^ i
          loop fn maxRetries initialDelayMs fuel (i + 1) (backoffWait s1 i delay) (some error)
    else
      some { outcome := .thrown lastError, run := s }

/-- The function `retryBraintreeCall(fn, maxRetries, initialDelayMs)` of
`src/index-backup.js`. -/
def retryBraintreeCall {α : Type} (fn : Nat → Settle α) (maxRetries initialDelayMs : Int) :
    Option (Settled α) :=
  loop fn maxRetries initialDelayMs (maxRetries.toNat + 1) 0 Run.init none

end Backup

/-! ## A common form of the two loops -/

/-- Both loops as one function of the timeout message and of the test that
decides whether a failed attempt, not the last one, is retried.  It is used
to reason about the two versions at once; `live_loop_eq` and `backup_loop_eq`
show that each version is an instance of it. -/
def retryLoop {α : Type} (timeoutMessage : String) (retryIf : JsError → Bool)
    (fn : Nat → Settle α) (maxRetries initialDelayMs : Int) :
    Nat → Nat → Run → Option JsError → Option (Settled α)
  | 0, _, _, _ => none
  | fuel + 1, i, s, lastError =>
    if (i : Int) < maxRetries then
      match raceResult timeoutMessage (fn i) with
      | .ok result => some { outcome := .returned result, run := attemptRace s i (fn i) }
      | .error error =>
        if (i : Int) = maxRetries - 1 then
          some { outcome := .thrown (some error), run := attemptRace s i (fn i) }
        else if retryIf error then
          retryLoop timeoutMessage retryIf fn maxRetries initialDelayMs fuel (i + 1)
            (backoffWait (attemptRace s i (fn i)) i (initialDelayMs * 2 ^ i)) (some error)
        else
          some { outcome := .thrown (some error), run := attemptRace s i (fn i) }
    else
      some { outcome := .thrown lastError, run := s }

/-- The attempt with loop index `k` ends the call with outcome `out`: it
succeeded, or it failed and was the last allowed attempt or was not to be
retried. -/
def FinalAttempt {α : Type} (timeoutMessage : String) (retryIf : JsError → Bool)
    (fn : Nat → Settle α) (maxRetries : Int) (k : Nat) (out : Outcome α) : Prop :=
  (∃ v, raceResult timeoutMessage (fn k) = .ok v ∧ out = .returned v) ∨
    (∃ e, raceResult timeoutMessage (fn k) = .error e ∧ out = .thrown (some e) ∧
      ((k : Int) = maxRetries - 1 ∨ retryIf e = false))

/-- Every pending timer is a per-attempt timeout timer that is not yet due. -/
def TimersOK (s : Run) : Prop :=
  ∀ t ∈ s.timers, t.kind = TimerKind.timeout ∧ s.now < t.due

/-- The operation does not settle within the per-attempt limit. -/
def timesOut {α : Type} : Settle α → Bool
  | .resolves _ d => decide (attemptTimeoutMs ≤ d)
  | .rejects _ d => decide (attemptTimeoutMs ≤ d)
  | .never => true

/-! ## The classification of the specification -/

/-- The classification in the words of the specification: an error is
retryable when its message contains a timeout indicator (`timeout`,
`timed out`) or its kind is the gateway's `unexpectedError`. -/
def specRetryable (e : JsError) : Bool :=
  includes e.message "timeout" || includes e.message "timed out" ||
    e.type == some "unexpectedError"

/-! ## Derived quantities of a run -/

/-- The clock value at which the attempt with loop index `j` starts when the
attempts before it were all retried: each earlier attempt takes the time of
its race, followed by its backoff wait. -/
def startTime {α : Type} (fn : Nat → Settle α) (initialDelayMs : Int) : Nat → Nat
  | 0 => 0
  | j + 1 =>
    startTime fn initialDelayMs j + raceDuration (fn j) + timerDelay (initialDelayMs * 2 ^ j)

/-- The operation invoked at clock value `startedAt` is still unsettled at
clock value `t`. -/
def unsettledAt {α : Type} (o : Settle α) (startedAt t : Nat) : Bool :=
  match o with
  | .resolves _ d => decide (t < startedAt + d)
  | .rejects _ d => decide (t < startedAt + d)
  | .never => true

/-- The parameter list `(fn, maxRetries = 3, initialDelayMs = 1000)` of
`src/index.js`: an argument that is left out (`none`) takes its default. -/
def Live.retryBraintreeCallArgs {α : Type} (fn : Nat → Settle α)
    (maxRetries initialDelayMs : Option Int) : Option (Settled α) :=
  Live.retryBraintreeCall fn (maxRetries.getD 3) (initialDelayMs.getD 1000)

/-- The parameter list `(fn, maxRetries = 3, initialDelayMs = 1000)` of
`src/index-backup.js`. -/
def Backup.retryBraintreeCallArgs {α : Type} (fn : Nat → Settle α)
    (maxRetries initialDelayMs : Option Int) : Option (Settled α) :=
  Backup.retryBraintreeCall fn (maxRetries.getD 3) (initialDelayMs.getD 1000)

/-- Every pending timer is the timeout timer of an attempt, due 90000 ms
after the start of that attempt. -/
def TimersDue {α : Type} (fn : Nat → Settle α) (d : Int) (s : Run) : Prop :=
  ∀ t ∈ s.timers, t.kind = TimerKind.timeout ∧ t.due = startTime fn d t.index + 90000

/-! ## The HTTP server of `src/index.js`

The route handlers receive client-supplied JSON and call the payment gateway.
Request and response values are JavaScript values; what the gateway SDK
returns is typed as the SDK documents it, with opaque values at the leaves. -/

/-- A JavaScript value as it occurs in a JSON body or in an object literal
given to `res.json`.  A number is given by its decimal text, the text
`String(n)` produces (`"0"` for both zeros, `"NaN"` for not-a-number). -/
inductive JsValue where
  | undefined
  | null
  | bool (b : Bool)
  | num (text : String)
  | str (s : String)
  | arr (items : List JsValue)
  | obj (fields : List (String × JsValue))

/-- JavaScript truthiness, as tested by `!x`, `x || y` and `if (x)`. -/
def truthy : JsValue → Bool
  | .undefined => false
  | .null => false
  | .bool b => b
  | .num t => t != "0" && t != "NaN"
  | .str s => s != ""
  | .arr _ => true
  | .obj _ => true

/-- The expression `a || b`. -/
def orElse (a b : JsValue) : JsValue :=
  if truthy a then a else b

/-- The property `key` of an object with the given fields, `undefined` when
the object has no such property. -/
def field (fields : List (String × JsValue)) (key : String) : JsValue :=
  (fields.lookup key).getD JsValue.undefined

/-- The object has an own property `toString`.  In a value that comes from
JSON no property is a function, so such a property hides the callable
`Object.prototype.toString`. -/
def hasOwnToString (fields : List (String × JsValue)) : Bool :=
  (fields.lookup "toString").isSome

mutual
/-- The string conversion of template literals, of `+` with a string and of
`toString()` on a value that is neither `undefined` nor `null`; `none` when
the conversion throws a `TypeError`: an object with an own property
`toString` cannot be converted, nor can an array with such an element. -/
def toStr : JsValue → Option String
  | .undefined => some "undefined"
  | .null => some "null"
  | .bool b => some (if b then "true" else "false")
  | .num t => some t
  | .str s => some s
  | .arr items => joinItems items
  | .obj fields => if hasOwnToString fields then none else some "[object Object]"
termination_by structural v => v
/-- The method `Array.prototype.join` with a comma, used by the string
conversion of an array: `undefined` and `null` give the empty string. -/
def joinItems : List JsValue → Option String
  | [] => some ""
  | x :: rest =>
    match (match x with
      | .undefined => some ""
      | .null => some ""
      | v => toStr v), joinItems rest with
    | some first, some others => some (first ++ (if rest.isEmpty then "" else ",") ++ others)
    | _, _ => none
termination_by structural l => l
end

/-- The message of the `TypeError` of a failed conversion to a string
(the wording of V8). -/
def notPrimitiveMessage : String := "Cannot convert object to primitive value"

/-- The message of the `TypeError` of `amount.toString()` when it throws (the
wording of V8): for an object the own property `toString` is not a function,
for an array an element cannot be converted. -/
def amountToStringMessage : JsValue → String
  | .obj _ => "amount.toString is not a function"
  | _ => notPrimitiveMessage

/-- A subscription as the gateway returns it. -/
structure Subscription where
  id : JsValue
  status : JsValue
  planId : JsValue
  price : JsValue
  nextBillingDate : JsValue
  firstBillingDate : JsValue

/-- A payment method as the gateway returns it; `subscriptions` may be absent. -/
structure PaymentMethod where
  token : JsValue
  nonce : JsValue
  subscriptions : Option (List Subscription)

/-- A customer as the gateway returns it; `paymentMethods` may be absent. -/
structure Customer where
  paymentMethods : Option (List PaymentMethod)

/-- A billing plan as the gateway returns it. -/
structure Plan where
  id : JsValue
  name : JsValue
  description : JsValue
  price : JsValue
  currencyIsoCode : JsValue
  billingFrequency : JsValue
  numberOfBillingCycles : JsValue
  trialPeriod : JsValue
  trialDuration : JsValue
  trialDurationUnit : JsValue

/-- A transaction as the gateway returns it. -/
structure Transaction where
  id : JsValue
  amount : JsValue
  status : JsValue

/-- The result object of a gateway operation that resolves: `success` is true
and the payload is present, or `success` is false and there is a `message`. -/
inductive GatewayResult (α : Type) where
  | success (payload : α)
  | failure (message : String)

/-- A call made to the gateway, with its arguments. -/
inductive GatewayCall where
  | clientTokenGenerate (options : JsValue)
  | paymentMethodCreate (params : JsValue)
  | planAll
  | customerFind (id : JsValue)
  | customerCreate (params : JsValue)
  | subscriptionCreate (params : JsValue)
  | subscriptionUpdate (id : JsValue) (params : JsValue)
  | subscriptionCancel (id : JsValue)
  | transactionSale (params : JsValue)

/-- The gateway during one request, as the way the calls of each of its
operations settle: the last argument is the number of earlier calls of the
operation in the request.  An operation that runs inside `retryBraintreeCall`
is called once per attempt, so that number is the loop index of the attempt;
the other operations are called at most once, with number `0`. -/
structure Gateway where
  clientTokenGenerate : JsValue → Nat → Settle JsValue
  paymentMethodCreate : JsValue → Nat → Settle (GatewayResult PaymentMethod)
  planAll : Nat → Settle (List Plan)
  customerFind : JsValue → Nat → Settle Customer
  customerCreate : JsValue → Nat → Settle (GatewayResult Customer)
  subscriptionCreate : JsValue → Nat → Settle (GatewayResult Subscription)
  subscriptionUpdate : JsValue → JsValue → Nat → Settle (GatewayResult Subscription)
  subscriptionCancel : JsValue → Nat → Settle (GatewayResult Subscription)
  transactionSale : JsValue → Nat → Settle (GatewayResult Transaction)

/-- What the handlers read from the process: `process.env.BRAINTREE_ENVIRONMENT`,
`process.env.PORT`, the address `getLocalIpAddress()` returns, the text of
`new Date().toISOString()`, and the message of the `TypeError` the engine
throws when a method is called on a value that does not have it. -/
structure Env where
  braintreeEnvironment : Option String
  port : Option String
  localIp : String
  timestamp : String
  typeErrorMessage : String

/-- The constant `PORT = process.env.PORT || 3000`. -/
def Env.PORT (env : Env) : JsValue :=
  match env.port with
  | some p => if p != "" then JsValue.str p else JsValue.num "3000"
  | none => JsValue.num "3000"

/-- The text of `PORT` in a template literal. -/
def Env.portText (env : Env) : String :=
  match env.port with
  | some p => if p != "" then p else "3000"
  | none => "3000"

/-- A request after `express.json()`: `req.body` and `req.query` are objects,
given by their fields. -/
structure Request where
  method : String
  path : String
  body : List (String × JsValue)
  query : List (String × JsValue)

/-- The response of a handler: `res.status(status).json(body)`; `res.json`
alone has status 200. -/
structure Response where
  status : Nat
  body : JsValue

/-- A field of the response body. -/
def Response.bodyField (r : Response) (key : String) : JsValue :=
  match r.body with
  | .obj fields => field fields key
  | _ => JsValue.undefined

/-- What a handler did: the response it sent and the gateway calls it made,
in order. -/
structure Handled where
  response : Response
  calls : List GatewayCall

/-- The expression `process.env.BRAINTREE_ENVIRONMENT || 'sandbox'`. -/
def Env.environment (env : Env) : JsValue :=
  match env.braintreeEnvironment with
  | some e => if e != "" then JsValue.str e else JsValue.str "sandbox"
  | none => JsValue.str "sandbox"

/-- The `catch` block shared by the handlers:
`res.status(500).json({ success: false, error: label, message: error.message })`. -/
def serverError (label : String) (error : JsError) (calls : List GatewayCall) : Handled :=
  { response :=
      { status := 500
        body := .obj [("success", .bool false), ("error", .str label),
          ("message", .str error.message)] }
    calls := calls }

namespace Live

/-- The listing of endpoints in the answer of `GET /`. -/
def endpointsListing : JsValue :=
  .obj [("health", .str "GET /api/health"), ("config", .str "GET /api/config"),
    ("token", .str "POST /api/token"), ("subscribe", .str "POST /api/subscribe"),
    ("subscriptionStatus", .str "GET /api/subscription/status"),
    ("cancelSubscription", .str "POST /api/subscription/cancel"),
    ("updateSubscription", .str "PUT /api/subscription/update"),
    ("parkingPayment", .str "POST /api/parking-payment"), ("plans", .str "GET /api/plans")]

/-- The handler of `GET /`. -/
def getRoot (env : Env) : Handled :=
  { response :=
      { status := 200
        body := .obj [("status", .str "online"),
          ("message", .str "🚀 Parking Backend API - Sistema de Suscripciones"),
          ("environment", env.environment), ("version", .str "2.0.0"),
          ("subscriptionBased", .bool true), ("endpoints", endpointsListing),
          ("urls", .obj [("localhost", .str ("http://localhost:" ++ env.portText)),
            ("networkIp", .str ("http://" ++ env.localIp ++ ":" ++ env.portText))])] }
    calls := [] }

/-- The handler of `GET /api/health`. -/
def getHealth (env : Env) : Handled :=
  { response :=
      { status := 200
        body := .obj [("status", .str "healthy"), ("timestamp", .str env.timestamp),
          ("environment", env.environment)] }
    calls := [] }

/-- The handler of `GET /api/config`. -/
def getConfig (env : Env) : Handled :=
  { response :=
      { status := 200
        body := .obj [("success", .bool true),
          ("backendUrl", .str ("http://" ++ env.localIp ++ ":" ++ env.portText)),
          ("environment", env.environment), ("port", env.PORT)] }
    calls := [] }

/-- The handler registered last with `app.use`: every request no route
matched. -/
def notFound : Handled :=
  { response :=
      { status := 404
        body := .obj [("success", .bool false), ("error", .str "Endpoint no encontrado"),
          ("availableEndpoints",
            .obj [("health", .str "GET /"), ("config", .str "GET /api/config"),
              ("token", .str "POST /api/token"), ("subscribe", .str "POST /api/subscribe"),
              ("subscriptionStatus", .str "GET /api/subscription/status"),
              ("cancelSubscription", .str "POST /api/subscription/cancel"),
              ("updateSubscription", .str "PUT /api/subscription/update"),
              ("parkingPayment", .str "POST /api/parking-payment"),
              ("plans", .str "GET /api/plans")])] }
    calls := [] }

/-- The object `tokenOptions` of `POST /api/token`: the `customerId` of the
body when it is truthy. -/
def tokenOptions (body : List (String × JsValue)) : JsValue :=
  if truthy (field body "customerId") then .obj [("customerId", field body "customerId")]
  else .obj []

/-- The call `retryBraintreeCall(async () => gateway.clientToken.generate(tokenOptions))`
of `POST /api/token`: only the operation is given, one gateway call per
attempt. -/
def tokenCall (gw : Gateway) (tokenOptions : JsValue) : Option (Settled JsValue) :=
  retryBraintreeCallArgs (fun i => gw.clientTokenGenerate tokenOptions i) none none

/-- The handler of `POST /api/token`.  The gateway resolves with the response
object, given by its `clientToken`.  A handler that never sends a response is
`none`. -/
def postToken (gw : Gateway) (body : List (String × JsValue)) : Option Handled :=
  match tokenCall gw (tokenOptions body) with
  | none => none
  | some settled =>
    let calls := settled.run.invocations.map
      (fun _ => GatewayCall.clientTokenGenerate (tokenOptions body))
    match settled.outcome with
    | .returned clientToken =>
      some { response :=
               { status := 200
                 body := .obj [("success", .bool true), ("clientToken", clientToken)] }
             calls := calls }
    | .thrown (some error) => some (serverError "Error generando token" error calls)
    | .thrown none => none

/-- The operation `POST /api/tokenize` gives to `retryBraintreeCall`:
`gateway.clientToken.generate()` and then `gateway.paymentMethod.create`. -/
def tokenizeOperation (gw : Gateway) (params : JsValue) (i : Nat) :
    Settle (GatewayResult PaymentMethod) :=
  match gw.clientTokenGenerate .undefined i with
  | .rejects e d => .rejects e d
  | .never => .never
  | .resolves _ d =>
    match gw.paymentMethodCreate params i with
    | .resolves result d2 => .resolves result (d + d2)
    | .rejects e d2 => .rejects e (d + d2)
    | .never => .never

/-- The gateway calls one invocation of `tokenizeOperation` makes. -/
def tokenizeCalls (gw : Gateway) (params : JsValue) (i : Nat) : List GatewayCall :=
  match gw.clientTokenGenerate .undefined i with
  | .resolves _ _ => [.clientTokenGenerate .undefined, .paymentMethodCreate params]
  | _ => [.clientTokenGenerate .undefined]

/-- The argument of `gateway.paymentMethod.create` in `POST /api/tokenize`. -/
def tokenizeParams (body : List (String × JsValue)) : JsValue :=
  .obj [("customerId", .null), ("paymentMethodNonce", .str "fake-valid-nonce"),
    ("creditCard", .obj [("number", field body "cardNumber"),
      ("expirationMonth", field body "expirationMonth"),
      ("expirationYear", field body "expirationYear"), ("cvv", field body "cvv"),
      ("cardholderName", orElse (field body "cardholderName") (.str "Usuario"))])]

/-- The call of `retryBraintreeCall` in `POST /api/tokenize`: only the
operation is given. -/
def tokenizeCall (gw : Gateway) (params : JsValue) :
    Option (Settled (GatewayResult PaymentMethod)) :=
  retryBraintreeCallArgs (tokenizeOperation gw params) none none

/-- The handler of `POST /api/tokenize`.  The `console.log` lines before the
validation call `cardNumber.substring`, which throws a `TypeError` unless
`cardNumber` is a string, and evaluate `expirationMonth + '/' + expirationYear`,
which throws when one of them cannot be converted to a string; `nonce.substring`
after the gateway call throws unless the nonce is a string. -/
def postTokenize (env : Env) (gw : Gateway) (body : List (String × JsValue)) : Option Handled :=
  let cardNumber := field body "cardNumber"
  let expirationMonth := field body "expirationMonth"
  let expirationYear := field body "expirationYear"
  let cvv := field body "cvv"
  match cardNumber with
  | .str _ =>
    match toStr expirationMonth, toStr expirationYear with
    | some _, some _ =>
      if !truthy cardNumber || !truthy expirationMonth || !truthy expirationYear || !truthy cvv then
        some { response :=
                 { status := 400
                   body := .obj [("success", .bool false), ("error", .str "Faltan datos de la tarjeta"),
                     ("required", .arr [.str "cardNumber", .str "expirationMonth",
                       .str "expirationYear", .str "cvv"])] }
               calls := [] }
      else
        let params := tokenizeParams body
        match tokenizeCall gw params with
        | none => none
        | some settled =>
          let calls := settled.run.invocations.flatMap
            (fun v => tokenizeCalls gw params (v.attempt - 1))
          match settled.outcome with
          | .returned (.failure message) =>
            some { response :=
                     { status := 400
                       body := .obj [("success", .bool false),
                         ("error", orElse (.str message) (.str "Error tokenizando tarjeta"))] }
                   calls := calls }
          | .returned (.success paymentMethod) =>
            match paymentMethod.nonce with
            | .str nonce =>
              some { response :=
                       { status := 200
                         body := .obj [("success", .bool true), ("nonce", .str nonce),
                           ("message", .str "Tarjeta tokenizada exitosamente")] }
                     calls := calls }
            | _ =>
              some (serverError "Error tokenizando tarjeta"
                { message := env.typeErrorMessage, type := none } calls)
          | .thrown (some error) => some (serverError "Error tokenizando tarjeta" error calls)
          | .thrown none => none
    | _, _ =>
      some (serverError "Error tokenizando tarjeta"
        { message := notPrimitiveMessage, type := none } [])
  | _ =>
    some (serverError "Error tokenizando tarjeta"
      { message := env.typeErrorMessage, type := none } [])

/-- The object the handler of `GET /api/plans` makes of one plan. -/
def planJson (plan : Plan) : JsValue :=
  .obj [("id", plan.id), ("name", plan.name), ("description", plan.description),
    ("price", plan.price), ("currencyIsoCode", plan.currencyIsoCode),
    ("billingFrequency", plan.billingFrequency),
    ("numberOfBillingCycles", plan.numberOfBillingCycles),
    ("trialPeriod", orElse plan.trialPeriod (.bool false)),
    ("trialDuration", orElse plan.trialDuration .null),
    ("trialDurationUnit", orElse plan.trialDurationUnit .null)]

/-- The call `retryBraintreeCall(async () => gateway.plan.all())` of
`GET /api/plans`: only the operation is given. -/
def plansCall (gw : Gateway) : Option (Settled (List Plan)) :=
  retryBraintreeCallArgs (fun i => gw.planAll i) none none

/-- The handler of `GET /api/plans`. -/
def getPlans (gw : Gateway) : Option Handled :=
  match plansCall gw with
  | none => none
  | some settled =>
    let calls := settled.run.invocations.map (fun _ => GatewayCall.planAll)
    match settled.outcome with
    | .returned result =>
      some { response :=
               { status := 200
                 body := .obj [("success", .bool true), ("plans", .arr (result.map planJson))] }
             calls := calls }
    | .thrown (some error) => some (serverError "Error obteniendo planes" error calls)
    | .thrown none => none

end Live

namespace Live

/-- The object the subscription handlers make of a subscription:
`id`, `status`, `planId`, `price`, `nextBillingDate`. -/
def subscriptionJson (sub : Subscription) : List (String × JsValue) :=
  [("id", sub.id), ("status", sub.status), ("planId", sub.planId), ("price", sub.price),
    ("nextBillingDate", sub.nextBillingDate)]

/-- Step 3 of `POST /api/subscribe`: create the subscription. -/
def subscribeCreate (gw : Gateway) (planId paymentMethodToken : JsValue)
    (calls : List GatewayCall) : Option Handled :=
  let params : JsValue := .obj [("paymentMethodToken", paymentMethodToken), ("planId", planId)]
  let calls := calls ++ [.subscriptionCreate params]
  match gw.subscriptionCreate params 0 with
  | .never => none
  | .rejects error _ => some (serverError "Error creando suscripción" error calls)
  | .resolves (.failure message) _ =>
    some { response :=
             { status := 400
               body := .obj [("success", .bool false), ("error", .str "Error creando suscripción"),
                 ("message", .str message)] }
           calls := calls }
  | .resolves (.success subscription) _ =>
    some { response :=
             { status := 200
               body := .obj [("success", .bool true),
                 ("subscription", .obj (subscriptionJson subscription ++
                   [("firstBillingDate", subscription.firstBillingDate)])),
                 ("message", .str "Suscripción creada exitosamente")] }
           calls := calls }

/-- Step 2 of `POST /api/subscribe`: take the first payment method of the
customer, or create one. -/
def subscribePaymentMethod (gw : Gateway) (paymentMethodNonce planId userId : JsValue)
    (customer : Customer) (calls : List GatewayCall) : Option Handled :=
  match customer.paymentMethods with
  | some (first :: _) => subscribeCreate gw planId first.token calls
  | _ =>
    let params : JsValue :=
      .obj [("customerId", userId), ("paymentMethodNonce", paymentMethodNonce)]
    let calls := calls ++ [.paymentMethodCreate params]
    match gw.paymentMethodCreate params 0 with
    | .never => none
    | .rejects error _ => some (serverError "Error creando suscripción" error calls)
    | .resolves (.failure _) _ =>
      some (serverError "Error creando suscripción"
        { message := "Error creando método de pago", type := none } calls)
    | .resolves (.success paymentMethod) _ => subscribeCreate gw planId paymentMethod.token calls

/-- The handler of `POST /api/subscribe`. -/
def postSubscribe (gw : Gateway) (body : List (String × JsValue)) : Option Handled :=
  let paymentMethodNonce := field body "paymentMethodNonce"
  let planId := field body "planId"
  let userId := field body "userId"
  let email := field body "email"
  if !truthy paymentMethodNonce || !truthy planId || !truthy userId then
    some { response :=
             { status := 400
               body := .obj [("success", .bool false), ("error", .str "Faltan datos requeridos"),
                 ("required", .arr [.str "paymentMethodNonce", .str "planId", .str "userId"])] }
           calls := [] }
  else
    match gw.customerFind userId 0 with
    | .never => none
    | .resolves customer _ =>
      subscribePaymentMethod gw paymentMethodNonce planId userId customer [.customerFind userId]
    | .rejects error _ =>
      if error.type == some "notFoundError" then
        let params : JsValue :=
          .obj [("id", userId), ("email", email), ("paymentMethodNonce", paymentMethodNonce)]
        let calls := [GatewayCall.customerFind userId, .customerCreate params]
        match gw.customerCreate params 0 with
        | .never => none
        | .rejects error2 _ => some (serverError "Error creando suscripción" error2 calls)
        | .resolves (.failure message) _ =>
          some (serverError "Error creando suscripción"
            { message := "Error creando cliente: " ++ message, type := none } calls)
        | .resolves (.success customer) _ =>
          subscribePaymentMethod gw paymentMethodNonce planId userId customer calls
      else
        some (serverError "Error creando suscripción" error [.customerFind userId])

/-- The test `['Active', 'Pending'].includes(sub.status)`. -/
def isActiveOrPending (sub : Subscription) : Bool :=
  match sub.status with
  | .str s => s == "Active" || s == "Pending"
  | _ => false

/-- The handler of `GET /api/subscription/status`.  (The `console.log` of the
`userId` after the validation is left out: it could throw only for a `userId`
that is an object, and whether the query parser produces one is not fixed by
the source.) -/
def getSubscriptionStatus (env : Env) (gw : Gateway) (query : List (String × JsValue)) :
    Option Handled :=
  let userId := field query "userId"
  if !truthy userId then
    some { response :=
             { status := 400
               body := .obj [("success", .bool false), ("error", .str "userId es requerido")] }
           calls := [] }
  else
    match gw.customerFind userId 0 with
    | .never => none
    | .resolves customer _ =>
      match customer.paymentMethods with
      | none =>
        some (serverError "Error consultando suscripción"
          { message := env.typeErrorMessage, type := none } [.customerFind userId])
      | some paymentMethods =>
        let subscriptions :=
          (paymentMethods.flatMap (fun pm => pm.subscriptions.getD [])).filter isActiveOrPending
        match subscriptions with
        | sub :: _ =>
          some { response :=
                   { status := 200
                     body := .obj [("success", .bool true),
                       ("subscription", .obj (subscriptionJson sub ++
                         [("isPremium", .bool true)]))] }
                 calls := [.customerFind userId] }
        | [] =>
          some { response :=
                   { status := 200
                     body := .obj [("success", .bool true),
                       ("subscription", .obj [("status", .str "free"), ("plan", .str "free"),
                         ("isPremium", .bool false)])] }
                 calls := [.customerFind userId] }
    | .rejects error _ =>
      if error.type == some "notFoundError" then
        some { response :=
                 { status := 200
                   body := .obj [("success", .bool true),
                     ("subscription", .obj [("status", .str "new_user"), ("plan", .str "free"),
                       ("isPremium", .bool false)])] }
               calls := [.customerFind userId] }
      else
        some (serverError "Error consultando suscripción" error [.customerFind userId])

/-- The handler of `PUT /api/subscription/update`.  The `console.log` between
the validation and the gateway call puts `subscriptionId` and `newPlanId` in a
template literal, which throws when one of them cannot be converted to a
string. -/
def putSubscriptionUpdate (gw : Gateway) (body : List (String × JsValue)) : Option Handled :=
  let subscriptionId := field body "subscriptionId"
  let newPlanId := field body "newPlanId"
  if !truthy subscriptionId || !truthy newPlanId then
    some { response :=
             { status := 400
               body := .obj [("success", .bool false),
                 ("error", .str "subscriptionId y newPlanId son requeridos")] }
           calls := [] }
  else
    match toStr subscriptionId, toStr newPlanId with
    | some _, some _ =>
      let params : JsValue := .obj [("planId", newPlanId)]
      let calls := [GatewayCall.subscriptionUpdate subscriptionId params]
      match gw.subscriptionUpdate subscriptionId params 0 with
      | .never => none
      | .rejects error _ => some (serverError "Error actualizando suscripción" error calls)
      | .resolves (.failure message) _ =>
        some { response :=
                 { status := 400
                   body := .obj [("success", .bool false),
                     ("error", .str "Error actualizando suscripción"), ("message", .str message)] }
               calls := calls }
      | .resolves (.success subscription) _ =>
        some { response :=
                 { status := 200
                   body := .obj [("success", .bool true),
                     ("message", .str "Suscripción actualizada exitosamente"),
                     ("subscription", .obj (subscriptionJson subscription))] }
               calls := calls }
    | _, _ =>
      some (serverError "Error actualizando suscripción"
        { message := notPrimitiveMessage, type := none } [])

/-- The handler of `POST /api/subscription/cancel`.  The `console.log`
between the validation and the gateway call puts `subscriptionId` in a
template literal, which throws when it cannot be converted to a string. -/
def postSubscriptionCancel (gw : Gateway) (body : List (String × JsValue)) : Option Handled :=
  let subscriptionId := field body "subscriptionId"
  if !truthy subscriptionId then
    some { response :=
             { status := 400
               body := .obj [("success", .bool false),
                 ("error", .str "subscriptionId es requerido")] }
           calls := [] }
  else
    match toStr subscriptionId with
    | some _ =>
      let calls := [GatewayCall.subscriptionCancel subscriptionId]
      match gw.subscriptionCancel subscriptionId 0 with
      | .never => none
      | .rejects error _ =>
        if error.type == some "notFoundError" then
          some { response :=
                   { status := 404
                     body := .obj [("success", .bool false),
                       ("error", .str "Suscripción no encontrada"),
                       ("subscriptionId", subscriptionId)] }
                 calls := calls }
        else
          some (serverError "Error cancelando suscripción" error calls)
      | .resolves (.failure message) _ =>
        some { response :=
                 { status := 400
                   body := .obj [("success", .bool false),
                     ("error", .str "Error cancelando suscripción"), ("message", .str message)] }
               calls := calls }
      | .resolves (.success subscription) _ =>
        some { response :=
                 { status := 200
                   body := .obj [("success", .bool true),
                     ("message", .str "Suscripción cancelada exitosamente"),
                     ("subscription", .obj [("id", subscription.id),
                       ("status", subscription.status)])] }
               calls := calls }
    | none =>
      some (serverError "Error cancelando suscripción"
        { message := notPrimitiveMessage, type := none } [])

/-- The argument of `gateway.transaction.sale` in `POST /api/parking-payment`. -/
def saleParams (nonce : JsValue) (amountText : String) (customerId : JsValue) : JsValue :=
  .obj [("amount", .str amountText), ("paymentMethodNonce", nonce),
    ("customerId", customerId), ("options", .obj [("submitForSettlement", .bool true)])]

/-- The call `gateway.transaction.sale` of `POST /api/parking-payment` and
the response made of its result.  The argument `amount.toString()` throws a
`TypeError` when `amount` cannot be converted to a string; no sale is
submitted then. -/
def parkingSale (gw : Gateway) (nonce amount customerId : JsValue) (calls : List GatewayCall) :
    Option Handled :=
  match toStr amount with
  | none =>
    some (serverError "Error procesando pago"
      { message := amountToStringMessage amount, type := none } calls)
  | some amountText =>
    let params := saleParams nonce amountText customerId
    let calls := calls ++ [.transactionSale params]
    match gw.transactionSale params 0 with
    | .never => none
    | .rejects error _ => some (serverError "Error procesando pago" error calls)
    | .resolves (.failure message) _ =>
      some { response :=
               { status := 400
                 body := .obj [("success", .bool false), ("error", .str "Pago rechazado"),
                   ("message", .str message)] }
             calls := calls }
    | .resolves (.success transaction) _ =>
      some { response :=
               { status := 200
                 body := .obj [("success", .bool true),
                   ("transaction", .obj [("id", transaction.id), ("amount", transaction.amount),
                     ("status", transaction.status)]),
                   ("message", .str "Pago procesado exitosamente")] }
             calls := calls }

/-- The handler of `POST /api/parking-payment`. -/
def postParkingPayment (gw : Gateway) (body : List (String × JsValue)) : Option Handled :=
  let nonce := field body "nonce"
  let amount := field body "amount"
  let userId := field body "userId"
  if !truthy nonce || !truthy amount || !truthy userId then
    some { response :=
             { status := 400
               body := .obj [("success", .bool false), ("error", .str "Faltan datos requeridos")] }
           calls := [] }
  else
    let customerId := userId
    match gw.customerFind customerId 0 with
    | .never => none
    | .resolves _ _ => parkingSale gw nonce amount customerId [.customerFind customerId]
    | .rejects error _ =>
      if error.type == some "notFoundError" then
        let params : JsValue := .obj [("id", customerId)]
        let calls := [GatewayCall.customerFind customerId, .customerCreate params]
        match gw.customerCreate params 0 with
        | .never => none
        | .rejects error2 _ => some (serverError "Error procesando pago" error2 calls)
        | .resolves (.failure _) _ =>
          some (serverError "Error procesando pago"
            { message := "Error creando cliente", type := none } calls)
        | .resolves (.success _) _ => parkingSale gw nonce amount customerId calls
      else
        some (serverError "Error procesando pago" error [.customerFind customerId])

/-- Where a request ends up in `src/index.js`: in the preflight answer of the
`cors()` middleware, in one of the routes, or in the handler registered last
with `app.use`. -/
inductive Route where
  | preflight
  | root
  | health
  | config
  | token
  | tokenize
  | plans
  | subscribe
  | subscriptionStatus
  | subscriptionUpdate
  | subscriptionCancel
  | parkingPayment
  | unmatched
deriving DecidableEq, Repr

/-- The router of express compares a request path with the path of a route
without regard to the case of ASCII letters and allows one trailing slash
(neither `case sensitive routing` nor `strict routing` is enabled). -/
def pathMatches (routePath requestPath : String) : Bool :=
  let lowered := requestPath.data.map Char.toLower
  if routePath == "/" then lowered == ['/']
  else lowered == routePath.data || lowered == routePath.data ++ ['/']

/-- A route registered with `app.get` also serves `HEAD` requests. -/
def isGetOrHead (method : String) : Bool :=
  method == "GET" || method == "HEAD"

/-- The middleware and the routes of `src/index.js` in the order of their
registration: `cors()` answers every `OPTIONS` request itself; any other
request goes to the first route with its method and path, and to the last
handler when there is none. -/
def route (req : Request) : Route :=
  if req.method == "OPTIONS" then .preflight
  else if isGetOrHead req.method && pathMatches "/" req.path then .root
  else if isGetOrHead req.method && pathMatches "/api/health" req.path then .health
  else if isGetOrHead req.method && pathMatches "/api/config" req.path then .config
  else if req.method == "POST" && pathMatches "/api/token" req.path then .token
  else if req.method == "POST" && pathMatches "/api/tokenize" req.path then .tokenize
  else if isGetOrHead req.method && pathMatches "/api/plans" req.path then .plans
  else if req.method == "POST" && pathMatches "/api/subscribe" req.path then .subscribe
  else if isGetOrHead req.method && pathMatches "/api/subscription/status" req.path then
    .subscriptionStatus
  else if req.method == "PUT" && pathMatches "/api/subscription/update" req.path then
    .subscriptionUpdate
  else if req.method == "POST" && pathMatches "/api/subscription/cancel" req.path then
    .subscriptionCancel
  else if req.method == "POST" && pathMatches "/api/parking-payment" req.path then
    .parkingPayment
  else .unmatched

/-- What the middleware or the handler the request ends up in does.  The
preflight answer of `cors()` has status 204 and no body. -/
def dispatch (env : Env) (gw : Gateway) (req : Request) : Option Handled :=
  match route req with
  | .preflight => some { response := { status := 204, body := .undefined }, calls := [] }
  | .root => some (getRoot env)
  | .health => some (getHealth env)
  | .config => some (getConfig env)
  | .token => postToken gw req.body
  | .tokenize => postTokenize env gw req.body
  | .plans => getPlans gw
  | .subscribe => postSubscribe gw req.body
  | .subscriptionStatus => getSubscriptionStatus env gw req.query
  | .subscriptionUpdate => putSubscriptionUpdate gw req.body
  | .subscriptionCancel => postSubscriptionCancel gw req.body
  | .parkingPayment => postParkingPayment gw req.body
  | .unmatched => some notFound

/-- The response as it goes out: `res.json` sends the status and the headers
of the answer to a `HEAD` request and leaves the body out. -/
def sent (req : Request) (handled : Handled) : Handled :=
  if req.method == "HEAD" then
    { handled with response := { handled.response with body := .undefined } }
  else handled

/-- The server of `src/index.js`: the answer to a request. -/
def app (env : Env) (gw : Gateway) (req : Request) : Option Handled :=
  (dispatch env gw req).map (sent req)

end Live

/-! ## The test script `src/test-endpoints.js` -/

/-- The method and path of the requests `runAllTests` makes, in order. -/
def testRequests : List (String × String) :=
  [("GET", "/"), ("POST", "/api/token"), ("POST", "/api/payment"), ("POST", "/api/payment"),
    ("POST", "/api/parking-payment"), ("POST", "/api/payment")]

/-- The routes `src/index-backup.js` registers. -/
def Backup.routes : List (String × String) :=
  [("GET", "/"), ("GET", "/api/health"), ("GET", "/api/config"), ("POST", "/api/token"),
    ("POST", "/api/payment"), ("POST", "/api/parking-payment"), ("POST", "/api/cancel")]

/-! ## Example inputs -/

/-- A gateway on which no call ever settles; the examples override the
operations they use. -/
def Gateway.silent : Gateway :=
  { clientTokenGenerate := fun _ _ => .never
    paymentMethodCreate := fun _ _ => .never
    planAll := fun _ => .never
    customerFind := fun _ _ => .never
    customerCreate := fun _ _ => .never
    subscriptionCreate := fun _ _ => .never
    subscriptionUpdate := fun _ _ _ => .never
    subscriptionCancel := fun _ _ => .never
    transactionSale := fun _ _ => .never }

/-- An environment for the examples. -/
def Env.sample : Env :=
  { braintreeEnvironment := none
    port := none
    localIp := "192.168.0.10"
    timestamp := "2025-01-01T00:00:00.000Z"
    typeErrorMessage := "TypeError" }

/-- The body of the parking payment request of `src/test-endpoints.js`. -/
def parkingTestBody : List (String × JsValue) :=
  [("nonce", .str "fake-valid-nonce"), ("amount", .num "5.5"), ("userId", .str "test-user-789"),
    ("entryId", .str "entry-123")]

/-! ## The response envelope of the specification -/

/-- The envelope convention in the words of the specification: the body
carries a boolean `success`, which is `true` exactly on the success status
200, and a failure body carries a string `error`. -/
def Envelope (r : Response) : Prop :=
  ∃ b, r.bodyField "success" = .bool b ∧ (b = true ↔ r.status = 200) ∧
    (b = false → ∃ s, r.bodyField "error" = .str s)

/-! ## The subscription status in the words of the claims -/

/-- The first subscription with status `Active` or `Pending`, in
payment-method order and, within one payment method, in subscription order. -/
def firstActiveSubscription : List PaymentMethod → Option Subscription
  | [] => none
  | pm :: rest =>
    match (pm.subscriptions.getD []).find? Live.isActiveOrPending with
    | some sub => some sub
    | none => firstActiveSubscription rest

/-- A field of the object `subscription` of a response body. -/
def Response.subscriptionField (r : Response) (key : String) : JsValue :=
  match r.bodyField "subscription" with
  | .obj fields => field fields key
  | _ => JsValue.undefined

/-! ## The statement through which a call settles -/

/-- The statements of `retryBraintreeCall` that end a call: `return result`,
`throw error` for the last attempt, `throw error` for an error that is not
retried (only in `src/index-backup.js`), and `throw lastError` after the
loop. -/
inductive ExitPoint where
  | returnResult
  | throwLastAttempt
  | throwNotRetried
  | trailingThrow
deriving DecidableEq, Repr

/-- The loop of `src/index.js` as in `Live.loop`, recording in addition the
statement through which it settles. -/
def Live.loopTraced {α : Type} (fn : Nat → Settle α) (maxRetries initialDelayMs : Int) :
    Nat → Nat → Run → Option JsError → Option (Settled α × ExitPoint)
  | 0, _, _, _ => none
  | fuel + 1, i, s, lastError =>
    if (i : Int) < maxRetries then
      let s1 := attemptRace s i (fn i)
      match raceResult "Request timed out" (fn i) with
      | .ok result => some ({ outcome := .returned result, run := s1 }, .returnResult)
      | .error error =>
        let isLastAttempt := decide ((i : Int) = maxRetries - 1)
        if isLastAttempt then
          some ({ outcome := .thrown (some error), run := s1 }, .throwLastAttempt)
        else
          let delay := initialDelayMs * 2 ^ i
          Live.loopTraced fn maxRetries initialDelayMs fuel (i + 1) (backoffWait s1 i delay)
            (some error)
    else
      some ({ outcome := .thrown lastError, run := s }, .trailingThrow)

/-- The loop of `src/index-backup.js` as in `Backup.loop`, recording in
addition the statement through which it settles. -/
def Backup.loopTraced {α : Type} (fn : Nat → Settle α) (maxRetries initialDelayMs : Int) :
    Nat → Nat → Run → Option JsError → Option (Settled α × ExitPoint)
  | 0, _, _, _ => none
  | fuel + 1, i, s, lastError =>
    if (i : Int) < maxRetries then
      let s1 := attemptRace s i (fn i)
      match raceResult "Request timed out after 90 seconds" (fn i) with
      | .ok result => some ({ outcome := .returned result, run := s1 }, .returnResult)
      | .error error =>
        let isLastAttempt := decide ((i : Int) = maxRetries - 1)
        if isLastAttempt then
          some ({ outcome := .thrown (some error), run := s1 }, .throwLastAttempt)
        else if !Backup.isTimeout error then
          some ({ outcome := .thrown (some error), run := s1 }, .throwNotRetried)
        else
          let delay := initialDelayMs * 2 ^ i
          Backup.loopTraced fn maxRetries initialDelayMs fuel (i + 1) (backoffWait s1 i delay)
            (some error)
    else
      some ({ outcome := .thrown lastError, run := s }, .trailingThrow)

end ParkingBackend

namespace ParkingBackend

/-! ## Both versions are instances of the common loop -/

theorem live_loop_eq {α : Type} (fn : Nat → Settle α) (m d : Int) :
    ∀ (fuel i : Nat) (s : Run) (le : Option JsError),
      Live.loop fn m d fuel i s le = retryLoop "Request timed out" (fun _ => true) fn m d fuel i s le := by
  intro fuel
  induction fuel with
  | zero => intro i s le; rfl
  | succ fuel ih =>
    intro i s le
    simp only [Live.loop, retryLoop]
    split
    · cases h : raceResult "Request timed out" (fn i) with
      | ok v => simp
      | error e =>
        by_cases hl : (i : Int) = m - 1
        · simp [hl]
        · simp [hl, ih]
    · rfl

theorem backup_loop_eq {α : Type} (fn : Nat → Settle α) (m d : Int) :
    ∀ (fuel i : Nat) (s : Run) (le : Option JsError),
      Backup.loop fn m d fuel i s le =
        retryLoop "Request timed out after 90 seconds" Backup.isTimeout fn m d fuel i s le := by
  intro fuel
  induction fuel with
  | zero => intro i s le; rfl
  | succ fuel ih =>
    intro i s le
    simp only [Backup.loop, retryLoop]
    split
    · cases h : raceResult "Request timed out after 90 seconds" (fn i) with
      | ok v => simp
      | error e =>
        by_cases hl : (i : Int) = m - 1
        · simp [hl]
        · by_cases hc : Backup.isTimeout e
          · simp [hl, hc, ih]
          · simp [hl, hc]
    · rfl

/-! ## What one attempt and one backoff wait do to the run state -/

@[simp]
theorem attemptRace_invocations {α : Type} (s : Run) (i : Nat) (o : Settle α) :
    (attemptRace s i o).invocations = s.invocations ++ [{ attempt := i + 1, startedAt := s.now }] := rfl

@[simp]
theorem attemptRace_waits {α : Type} (s : Run) (i : Nat) (o : Settle α) :
    (attemptRace s i o).waits = s.waits := rfl

@[simp]
theorem attemptRace_now {α : Type} (s : Run) (i : Nat) (o : Settle α) :
    (attemptRace s i o).now = s.now + raceDuration o := rfl

@[simp]
theorem backoffWait_invocations (s : Run) (i : Nat) (delay : Int) :
    (backoffWait s i delay).invocations = s.invocations := rfl

@[simp]
theorem backoffWait_waits (s : Run) (i : Nat) (delay : Int) :
    (backoffWait s i delay).waits = s.waits ++ [delay] := rfl

theorem raceDuration_le {α : Type} (o : Settle α) : raceDuration o ≤ 90000 := by
  cases o with
  | resolves v t => simp only [raceDuration, attemptTimeoutMs]; split <;> omega
  | rejects e t => simp only [raceDuration, attemptTimeoutMs]; split <;> omega
  | never => simp [raceDuration, attemptTimeoutMs]

theorem timerDelay_timeout : timerDelay 90000 = 90000 := by decide

theorem attemptRace_timersOK {α : Type} (s : Run) (i : Nat) (o : Settle α) (h : TimersOK s) :
    TimersOK (attemptRace s i o) := by
  intro t ht
  simp only [attemptRace, advance, setTimeout, List.mem_filter, List.mem_append,
    List.mem_singleton, decide_eq_true_eq] at ht
  obtain ⟨hm, hd⟩ := ht
  refine ⟨?_, hd⟩
  rcases hm with hm | hm
  · exact (h t hm).1
  · rw [hm]

theorem attemptRace_timer_pending {α : Type} (s : Run) (i : Nat) (o : Settle α)
    (h : raceDuration o < 90000) :
    { kind := TimerKind.timeout, index := i, due := s.now + 90000 } ∈ (attemptRace s i o).timers := by
  simp only [attemptRace, advance, setTimeout, List.mem_filter, List.mem_append,
    List.mem_singleton, decide_eq_true_eq, timerDelay_timeout]
  exact ⟨Or.inr trivial, by omega⟩

theorem backoffWait_timersOK (s : Run) (i : Nat) (delay : Int) (h : TimersOK s) :
    TimersOK (backoffWait s i delay) := by
  intro t ht
  simp only [backoffWait, advance, setTimeout, List.mem_filter, List.mem_append,
    List.mem_singleton, decide_eq_true_eq] at ht
  obtain ⟨hm, hd⟩ := ht
  rcases hm with hm | hm
  · exact ⟨(h t hm).1, hd⟩
  · rw [hm] at hd
    simp at hd

/-! ## The run of the common loop -/

/-- From a loop index `i` inside the loop bound, with enough fuel, the loop
settles; its final attempt `k` is the first one from `i` on that succeeds, is
the last allowed one or fails with an error that is not retried; every attempt
before it failed and was retried; the attempts are numbered consecutively and
the waits follow the doubling schedule; no pending timer is a backoff timer,
and the timeout timer of a final attempt decided by the operation is pending. -/
theorem retryLoop_run {α : Type} (tm : String) (c : JsError → Bool) (fn : Nat → Settle α)
    (m d : Int) :
    ∀ (fuel i : Nat) (s : Run) (le : Option JsError), (i : Int) < m → m.toNat < fuel + i →
      ∃ r k, retryLoop tm c fn m d fuel i s le = some r ∧ i ≤ k ∧ (k : Int) < m ∧
        (∀ j, i ≤ j → j < k → ∃ e, raceResult tm (fn j) = .error e ∧ c e = true) ∧
        FinalAttempt tm c fn m k r.outcome ∧
        r.run.invocations.map (fun v => v.attempt) =
          s.invocations.map (fun v => v.attempt) ++ List.range' (i + 1) (k + 1 - i) ∧
        r.run.waits = s.waits ++ (List.range' i (k - i)).map (fun j => d * 2 ^ j) ∧
        (TimersOK s → TimersOK r.run ∧
          (raceDuration (fn k) < 90000 →
            ∃ t ∈ r.run.timers, t.kind = TimerKind.timeout ∧ t.index = k)) := by
  intro fuel
  induction fuel with
  | zero => intro i s le hi hf; omega
  | succ fuel ih =>
    intro i s le hi hf
    have stop : ∀ out : Outcome α, FinalAttempt tm c fn m i out →
        ∃ r k, some ({ outcome := out, run := attemptRace s i (fn i) } : Settled α) = some r ∧
          i ≤ k ∧ (k : Int) < m ∧
          (∀ j, i ≤ j → j < k → ∃ e, raceResult tm (fn j) = .error e ∧ c e = true) ∧
          FinalAttempt tm c fn m k r.outcome ∧
          r.run.invocations.map (fun v => v.attempt) =
            s.invocations.map (fun v => v.attempt) ++ List.range' (i + 1) (k + 1 - i) ∧
          r.run.waits = s.waits ++ (List.range' i (k - i)).map (fun j => d * 2 ^ j) ∧
          (TimersOK s → TimersOK r.run ∧
            (raceDuration (fn k) < 90000 →
              ∃ t ∈ r.run.timers, t.kind = TimerKind.timeout ∧ t.index = k)) := by
      intro out hout
      refine ⟨_, i, rfl, le_refl i, hi, ?_, hout, ?_, ?_, ?_⟩
      · intro j h1 h2; omega
      · simp
      · simp
      · intro hs
        exact ⟨attemptRace_timersOK s i (fn i) hs, fun hd =>
          ⟨_, attemptRace_timer_pending s i (fn i) hd, rfl, rfl⟩⟩
    simp only [retryLoop, if_pos hi]
    cases h : raceResult tm (fn i) with
    | ok v => exact stop _ (Or.inl ⟨v, h, rfl⟩)
    | error e =>
      by_cases hl : (i : Int) = m - 1
      · simp only [if_pos hl]
        exact stop _ (Or.inr ⟨e, h, rfl, Or.inl hl⟩)
      · simp only [if_neg hl]
        by_cases hc : c e = true
        · simp only [if_pos hc]
          obtain ⟨r, k, hr, hik, hkm, hpre, hfin, hinv, hw, ht⟩ :=
            ih (i + 1) (backoffWait (attemptRace s i (fn i)) i (d * 2 ^ i)) (some e)
              (by push_cast; omega) (by omega)
          refine ⟨r, k, hr, by omega, hkm, ?_, hfin, ?_, ?_, ?_⟩
          · intro j h1 h2
            by_cases hj : j = i
            · subst hj; exact ⟨e, h, hc⟩
            · exact hpre j (by omega) h2
          · rw [hinv]
            have e1 : k + 1 - i = (k + 1 - (i + 1)) + 1 := by omega
            rw [e1, List.range'_succ]
            simp
          · rw [hw]
            have e1 : k - i = (k - (i + 1)) + 1 := by omega
            rw [e1, List.range'_succ]
            simp
          · intro hs
            exact ht (backoffWait_timersOK _ _ _ (attemptRace_timersOK s i (fn i) hs))
        · simp only [if_neg hc]
          exact stop _ (Or.inr ⟨e, h, rfl, Or.inr (by simpa using hc)⟩)

/-- A whole call with `maxRetries ≥ 1`. -/
theorem retryLoop_call {α : Type} (tm : String) (c : JsError → Bool) (fn : Nat → Settle α)
    (m d : Int) (hm : 1 ≤ m) :
    ∃ (r : Settled α) (k : Nat),
      retryLoop tm c fn m d (m.toNat + 1) 0 Run.init none = some r ∧ (k : Int) < m ∧
      (∀ j, j < k → ∃ e, raceResult tm (fn j) = .error e ∧ c e = true) ∧
      FinalAttempt tm c fn m k r.outcome ∧
      r.run.invocations.map (fun v => v.attempt) = List.range' 1 (k + 1) ∧
      r.run.waits = (List.range k).map (fun j => d * 2 ^ j) ∧
      TimersOK r.run ∧
      (raceDuration (fn k) < 90000 →
        ∃ t ∈ r.run.timers, t.kind = TimerKind.timeout ∧ t.index = k) := by
  obtain ⟨r, k, hr, _, hkm, hpre, hfin, hinv, hw, ht⟩ :=
    retryLoop_run tm c fn m d (m.toNat + 1) 0 Run.init none (by omega) (by omega)
  have h0 : TimersOK Run.init := by intro t ht; simp [Run.init] at ht
  refine ⟨r, k, hr, hkm, fun j hj => hpre j (Nat.zero_le j) hj, hfin, ?_, ?_, (ht h0).1, (ht h0).2⟩
  · simpa [Run.init] using hinv
  · simpa [Run.init, List.range_eq_range'] using hw

/-- A whole call with `maxRetries ≤ 0`: the loop body never runs. -/
theorem retryLoop_call_nonpos {α : Type} (tm : String) (c : JsError → Bool)
    (fn : Nat → Settle α) (m d : Int) (hm : m ≤ 0) :
    retryLoop tm c fn m d (m.toNat + 1) 0 Run.init none =
      some { outcome := .thrown none, run := Run.init } := by
  have h : ¬ (((0 : Nat) : Int) < m) := by push_cast; omega
  simp only [retryLoop, if_neg h]

/-- The final attempt is determined by the operation: two attempts that both
end the call after retried failures are the same attempt. -/
theorem finalAttempt_unique {α : Type} (tm : String) (c : JsError → Bool) (fn : Nat → Settle α)
    (m : Int) (k k2 : Nat) (out : Outcome α) (hk2 : (k2 : Int) < m)
    (hpre2 : ∀ j, j < k2 → ∃ e, raceResult tm (fn j) = .error e ∧ c e = true)
    (hfin : FinalAttempt tm c fn m k out) : ¬ k < k2 := by
  intro hlt
  obtain ⟨e, he, hce⟩ := hpre2 k hlt
  rcases hfin with ⟨v, hv, _⟩ | ⟨e2, he2, _, hlast | hc⟩
  · rw [he] at hv; cases hv
  · omega
  · rw [he] at he2
    cases he2
    rw [hce] at hc
    cases hc

/-- What the call does after a failed attempt `j + 1` that was made: a failure
that is retried and is not the last allowed attempt is followed by the wait
`d * 2 ^ j` and a further attempt; any other failure ends the call with
that error. -/
theorem retryLoop_decision {α : Type} (tm : String) (c : JsError → Bool) (fn : Nat → Settle α)
    (m d : Int) (r : Settled α) (k j : Nat) (e : JsError) (hkm : (k : Int) < m)
    (hpre : ∀ j, j < k → ∃ e, raceResult tm (fn j) = .error e ∧ c e = true)
    (hfin : FinalAttempt tm c fn m k r.outcome)
    (hinv : r.run.invocations.map (fun v => v.attempt) = List.range' 1 (k + 1))
    (hw : r.run.waits = (List.range k).map (fun j => d * 2 ^ j))
    (hj : j < r.run.invocations.length) (he : raceResult tm (fn j) = .error e) :
    ((j : Int) < m - 1 → c e = true →
        j + 1 < r.run.invocations.length ∧ r.run.waits[j]? = some (d * 2 ^ j)) ∧
      ((j : Int) = m - 1 ∨ c e = false →
        r.outcome = .thrown (some e) ∧ r.run.invocations.length = j + 1 ∧
          r.run.waits.length = j) := by
  have hlen : r.run.invocations.length = k + 1 := by
    have := congrArg List.length hinv
    simpa using this
  have hwl : r.run.waits.length = k := by rw [hw]; simp
  have hjk : j ≤ k := by omega
  constructor
  · intro hlast hc
    have hlt : j < k := by
      rcases Nat.lt_or_ge j k with h | h
      · exact h
      · have hjk2 : j = k := by omega
        subst hjk2
        rcases hfin with ⟨v, hv, _⟩ | ⟨e2, he2, _, hl | hc2⟩
        · rw [he] at hv; cases hv
        · omega
        · rw [he] at he2; cases he2; rw [hc] at hc2; cases hc2
    refine ⟨by omega, ?_⟩
    rw [hw]
    simp [List.getElem?_map, List.getElem?_range, hlt]
  · intro hstop
    have hjk2 : j = k := by
      rcases Nat.lt_or_ge j k with h | h
      · obtain ⟨e2, he2, hc2⟩ := hpre j h
        rw [he] at he2
        cases he2
        rcases hstop with h1 | h1
        · omega
        · rw [hc2] at h1; cases h1
      · omega
    subst hjk2
    refine ⟨?_, hlen, hwl⟩
    rcases hfin with ⟨v, hv, _⟩ | ⟨e2, he2, ho, _⟩
    · rw [he] at hv; cases hv
    · rw [he] at he2; cases he2; exact ho

/-- The test of `src/index-backup.js` is the classification of the
specification restricted to errors with a non-empty message. -/
theorem backup_isTimeout_iff (e : JsError) :
    Backup.isTimeout e = true ↔ e.message ≠ "" ∧ specRetryable e = true := by
  simp [Backup.isTimeout, specRetryable]

/-- When the attempts before attempt `k + 1` all fail and are retried, and
attempt `k + 1` ends the call, the call is the run of exactly these attempts. -/
theorem retryLoop_stops_at {α : Type} (tm : String) (c : JsError → Bool) (fn : Nat → Settle α)
    (m d : Int) (k : Nat) (hkm : (k : Int) < m)
    (hpre : ∀ j, j < k → ∃ e, raceResult tm (fn j) = .error e ∧ c e = true)
    (hstop : (∃ v, raceResult tm (fn k) = .ok v) ∨ (k : Int) = m - 1) :
    ∃ r, retryLoop tm c fn m d (m.toNat + 1) 0 Run.init none = some r ∧
      FinalAttempt tm c fn m k r.outcome ∧
      r.run.invocations.map (fun v => v.attempt) = List.range' 1 (k + 1) ∧
      r.run.waits = (List.range k).map (fun j => d * 2 ^ j) := by
  obtain ⟨r, k0, hr, hk0, hpre0, hfin, hinv, hw, _, _⟩ :=
    retryLoop_call tm c fn m d (by omega)
  have h1 : ¬ k0 < k := finalAttempt_unique tm c fn m k0 k r.outcome hkm hpre hfin
  have h2 : ¬ k < k0 := by
    intro hlt
    obtain ⟨e, he, _⟩ := hpre0 k hlt
    rcases hstop with ⟨v, hv⟩ | hl
    · rw [he] at hv; cases hv
    · omega
  have hk : k0 = k := by omega
  subst hk
  exact ⟨r, hr, hfin, hinv, hw⟩

/-- Every call settles, whatever the operation does and whatever the policy
is: the operation is invoked at most `maxRetries` times, the attempts are
numbered `1, 2, ...`, the waits follow the doubling schedule, and the pending
timers are timeout timers that are not yet due. -/
theorem retryLoop_total {α : Type} (tm : String) (c : JsError → Bool) (fn : Nat → Settle α)
    (m d : Int) :
    ∃ r, retryLoop tm c fn m d (m.toNat + 1) 0 Run.init none = some r ∧
      r.run.invocations.length ≤ m.toNat ∧
      r.run.invocations.map (fun v => v.attempt) = List.range' 1 r.run.invocations.length ∧
      r.run.waits = (List.range (r.run.invocations.length - 1)).map (fun i => d * 2 ^ i) ∧
      (∀ i : Nat, i < r.run.waits.length → (i : Int) < m - 1) ∧
      TimersOK r.run ∧
      (∀ k, r.run.invocations.length = k + 1 → raceDuration (fn k) < 90000 →
        ∃ t ∈ r.run.timers, t.kind = TimerKind.timeout ∧ t.index = k) := by
  rcases le_or_lt m 0 with hm | hm
  · refine ⟨_, retryLoop_call_nonpos tm c fn m d hm, ?_⟩
    simp [Run.init, TimersOK]
  · obtain ⟨r, k, hr, hkm, _, _, hinv, hw, ht, hp⟩ := retryLoop_call tm c fn m d (by omega)
    have hlen : r.run.invocations.length = k + 1 := by
      have := congrArg List.length hinv
      simpa using this
    have hwl : r.run.waits.length = k := by rw [hw]; simp
    refine ⟨r, hr, by omega, by rw [hlen]; exact hinv, by rw [hlen]; exact hw, ?_, ht, ?_⟩
    · intro i hi; omega
    · intro k2 hk2 hd
      have : k2 = k := by omega
      subst this
      exact hp hd

/-- An operation that does not settle within the limit loses the race: the
attempt fails with the timeout error of the wrapper. -/
theorem raceResult_timesOut {α : Type} (tm : String) (o : Settle α) (h : timesOut o = true) :
    raceResult tm o = .error { message := tm, type := none } := by
  cases o with
  | resolves v t =>
    have h2 : ¬ t < attemptTimeoutMs := by simpa [timesOut] using h
    simp only [raceResult, if_neg h2]
  | rejects e t =>
    have h2 : ¬ t < attemptTimeoutMs := by simpa [timesOut] using h
    simp only [raceResult, if_neg h2]
  | never => rfl

/-- A failed attempt `j + 1` whose error is retried: when it is not the last
allowed attempt it is followed by the wait `d * 2 ^ j` and by attempt
`j + 2`; when it is the last allowed attempt its error is thrown. -/
theorem retryLoop_retried {α : Type} (tm : String) (c : JsError → Bool) (fn : Nat → Settle α)
    (m d : Int) (j : Nat) (e : JsError) (he : raceResult tm (fn j) = .error e)
    (hc : c e = true) :
    ∃ r, retryLoop tm c fn m d (m.toNat + 1) 0 Run.init none = some r ∧
      (j < r.run.invocations.length →
        ((j : Int) < m - 1 →
          r.run.waits[j]? = some (d * 2 ^ j) ∧
            (r.run.invocations.map (fun v => v.attempt))[j + 1]? = some (j + 2)) ∧
        ((j : Int) = m - 1 →
          r.outcome = .thrown (some e) ∧ r.run.invocations.length = j + 1)) := by
  rcases le_or_lt m 0 with hm | hm
  · refine ⟨_, retryLoop_call_nonpos tm c fn m d hm, ?_⟩
    intro hj
    simp [Run.init] at hj
  · obtain ⟨r, k, hr, hkm, hpre, hfin, hinv, hw, _, _⟩ := retryLoop_call tm c fn m d (by omega)
    refine ⟨r, hr, ?_⟩
    intro hj
    obtain ⟨hyes, hno⟩ := retryLoop_decision tm c fn m d r k j e hkm hpre hfin hinv hw hj he
    constructor
    · intro hlast
      obtain ⟨h1, h2⟩ := hyes hlast hc
      refine ⟨h2, ?_⟩
      have hlen : (r.run.invocations.map (fun v => v.attempt)).length =
          r.run.invocations.length := by simp
      rw [List.getElem?_eq_getElem (by omega)]
      simp only [hinv, List.getElem_range']
      congr 1
      omega
    · intro hlast
      obtain ⟨h1, h2, _⟩ := hno (Or.inl hlast)
      exact ⟨h1, h2⟩

/-! ## The claims -/

/-- C1, the code at the failing input: `retryBraintreeCall` of `src/index.js`
with the default policy, on an operation that always fails with the gateway's
authentication error (not retryable: no timeout text in the message, type not
`unexpectedError`), invokes the operation three times, waits 1000 ms and
2000 ms, and throws only then. -/
theorem live_retries_non_retryable_error :
    specRetryable ⟨"Authentication Error", some "authenticationError"⟩ = false ∧
    (Live.retryBraintreeCall
        (fun _ => (Settle.rejects ⟨"Authentication Error", some "authenticationError"⟩ 120 :
          Settle String)) 3 1000).map
      (fun r => (r.outcome, r.run.invocations.map (fun v => v.attempt), r.run.waits)) =
      some (Outcome.thrown (some ⟨"Authentication Error", some "authenticationError"⟩),
        [1, 2, 3], [1000, 2000]) := by
  decide

/-- C2, the code at the failing input: in `src/index-backup.js` the test
`error.type === 'unexpectedError'` stands inside the guard `error.message &&`
of `isTimeout`, while the classification in the `catch` block of
`POST /api/token` in the same file tests the type outside such a guard.  A
first attempt (of three allowed) that fails with an error of type
`unexpectedError` and an empty message is retryable by the stated
classification, yet the wrapper throws it at once: one invocation, no wait. -/
theorem backup_unexpectedError_without_message_not_retried :
    specRetryable ⟨"", some "unexpectedError"⟩ = true ∧
    (Backup.retryBraintreeCall
        (fun _ => (Settle.rejects ⟨"", some "unexpectedError"⟩ 120 : Settle String)) 3 1000).map
      (fun r => (r.outcome, r.run.invocations.map (fun v => v.attempt), r.run.waits)) =
      some (Outcome.thrown (some ⟨"", some "unexpectedError"⟩), [1], []) := by
  decide

/-- C3, the code at the failing input: in `src/index-backup.js`, with two
attempts allowed and a delay of 1000 ms, a first attempt that fails with a
retryable error (type `unexpectedError`, empty message) and a second attempt
that would succeed, the wrapper invokes the operation once and throws, instead
of invoking it twice and returning (the misplaced guard `error.message &&` of
`isTimeout`, as under C2). -/
theorem backup_no_retry_then_success_without_message :
    specRetryable ⟨"", some "unexpectedError"⟩ = true ∧
    (Backup.retryBraintreeCall
        (fun i => if i = 0 then Settle.rejects ⟨"", some "unexpectedError"⟩ 120
          else Settle.resolves "token" 80) 2 1000).map
      (fun r => (r.outcome, r.run.invocations.map (fun v => v.attempt), r.run.waits)) =
      some (Outcome.thrown (some ⟨"", some "unexpectedError"⟩), [1], []) := by
  decide

/-- C4, the code at the failing input: in `src/index-backup.js`, with two
attempts allowed and an operation that fails with a retryable error on every
attempt (first with type `unexpectedError` and an empty message, then with the
message `timeout`), the wrapper invokes the operation once, not twice, and
throws the error of attempt 1, not the error of attempt 2 (the misplaced guard
`error.message &&` of `isTimeout`, as under C2). -/
theorem backup_no_exhaustion_without_message :
    specRetryable ⟨"", some "unexpectedError"⟩ = true ∧ specRetryable ⟨"timeout", none⟩ = true ∧
    (Backup.retryBraintreeCall
        (fun i => (if i = 0 then Settle.rejects ⟨"", some "unexpectedError"⟩ 120
          else Settle.rejects ⟨"timeout", none⟩ 120 : Settle String)) 2 1000).map
      (fun r => (r.outcome, r.run.invocations.map (fun v => v.attempt), r.run.waits)) =
      some (Outcome.thrown (some ⟨"", some "unexpectedError"⟩), [1], []) := by
  decide

/-- C6: for every `maxRetries ≥ 1` and every `initialDelayMs`, if the first
attempt of the operation succeeds with `v` (it resolves before the timeout),
`retryBraintreeCall` (either version) returns `v`, invokes the operation
exactly once, as attempt 1, and performs no backoff wait. -/
theorem success_on_first_attempt {α : Type} (fn : Nat → Settle α) (m d : Int) (v : α) (t : Nat)
    (hm : 1 ≤ m) (h0 : fn 0 = .resolves v t) (ht : t < 90000) :
    (∃ r, Live.retryBraintreeCall fn m d = some r ∧ r.outcome = .returned v ∧
      r.run.invocations = [{ attempt := 1, startedAt := 0 }] ∧ r.run.waits = []) ∧
    (∃ r, Backup.retryBraintreeCall fn m d = some r ∧ r.outcome = .returned v ∧
      r.run.invocations = [{ attempt := 1, startedAt := 0 }] ∧ r.run.waits = []) := by
  have h1 : (((0 : Nat) : Int) < m) := by push_cast; omega
  constructor
  · refine ⟨{ outcome := .returned v, run := attemptRace Run.init 0 (fn 0) }, ?_, rfl, rfl, rfl⟩
    simp only [Live.retryBraintreeCall, Live.loop, if_pos h1, h0, raceResult, attemptTimeoutMs,
      if_pos ht]
  · refine ⟨{ outcome := .returned v, run := attemptRace Run.init 0 (fn 0) }, ?_, rfl, rfl, rfl⟩
    simp only [Backup.retryBraintreeCall, Backup.loop, if_pos h1, h0, raceResult,
      attemptTimeoutMs, if_pos ht]

/-- C6 at a concrete input: the default policy and an operation that resolves
with `abc` after 80 ms. -/
theorem success_on_first_attempt_witness :
    (1 : Int) ≤ 3 ∧ 80 < 90000 ∧
    (∃ r, Live.retryBraintreeCall (fun _ => Settle.resolves "abc" 80) 3 1000 = some r ∧
      r.outcome = .returned "abc" ∧
      r.run.invocations = [{ attempt := 1, startedAt := 0 }] ∧ r.run.waits = []) ∧
    (∃ r, Backup.retryBraintreeCall (fun _ => Settle.resolves "abc" 80) 3 1000 = some r ∧
      r.outcome = .returned "abc" ∧
      r.run.invocations = [{ attempt := 1, startedAt := 0 }] ∧ r.run.waits = []) :=
  ⟨by decide, by decide,
    success_on_first_attempt (fun _ => Settle.resolves "abc" 80) 3 1000 "abc" 80
      (by decide) rfl (by decide)⟩

/-- C7: for every `maxRetries`, every `initialDelayMs` and every behaviour of
the operation, `retryBraintreeCall` (either version) settles having invoked
the operation at most `maxRetries` times (not at all when `maxRetries ≤ 0`),
and the attempts it made are numbered `1, 2, ..., n` in this order. -/
theorem bounded_invocations {α : Type} (fn : Nat → Settle α) (m d : Int) :
    (∃ r, Live.retryBraintreeCall fn m d = some r ∧
      r.run.invocations.length ≤ m.toNat ∧
      r.run.invocations.map (fun v => v.attempt) = List.range' 1 r.run.invocations.length) ∧
    (∃ r, Backup.retryBraintreeCall fn m d = some r ∧
      r.run.invocations.length ≤ m.toNat ∧
      r.run.invocations.map (fun v => v.attempt) = List.range' 1 r.run.invocations.length) := by
  constructor
  · obtain ⟨r, hr, hl, hn, _⟩ := retryLoop_total "Request timed out" (fun _ => true) fn m d
    exact ⟨r, by rw [Live.retryBraintreeCall, live_loop_eq]; exact hr, hl, hn⟩
  · obtain ⟨r, hr, hl, hn, _⟩ :=
      retryLoop_total "Request timed out after 90 seconds" Backup.isTimeout fn m d
    exact ⟨r, by rw [Backup.retryBraintreeCall, backup_loop_eq]; exact hr, hl, hn⟩

/-- C8: for every `maxRetries ≥ 1` and every behaviour of the operation,
`retryBraintreeCall` of `src/index.js` settles after at least one attempt,
and with `k + 1` the last attempt it made: if that attempt succeeded with `v`
the call returns `v`, and if it failed with `e` (the operation's own error or
the timeout error) the call throws exactly `e`. -/
theorem terminal_outcome_is_last_attempt {α : Type} (fn : Nat → Settle α) (m d : Int)
    (hm : 1 ≤ m) :
    ∃ (r : Settled α) (k : Nat), Live.retryBraintreeCall fn m d = some r ∧
      r.run.invocations.length = k + 1 ∧
      ((∃ v, raceResult "Request timed out" (fn k) = .ok v ∧ r.outcome = .returned v) ∨
        (∃ e, raceResult "Request timed out" (fn k) = .error e ∧
          r.outcome = .thrown (some e))) := by
  obtain ⟨r, k, hr, _, _, hfin, hinv, _⟩ :=
    retryLoop_call "Request timed out" (fun _ => true) fn m d hm
  have hlen : r.run.invocations.length = k + 1 := by
    have := congrArg List.length hinv
    simpa using this
  refine ⟨r, k, by rw [Live.retryBraintreeCall, live_loop_eq]; exact hr, hlen, ?_⟩
  rcases hfin with ⟨v, hv, ho⟩ | ⟨e, he, ho, _⟩
  · exact Or.inl ⟨v, hv, ho⟩
  · exact Or.inr ⟨e, he, ho⟩

/-- C8 at a concrete input: two attempts allowed; the first fails with a
validation error, the second never settles. -/
theorem terminal_outcome_is_last_attempt_witness :
    (1 : Int) ≤ 2 ∧
    ∃ (r : Settled String) (k : Nat),
      Live.retryBraintreeCall
        (fun i => if i = 0 then Settle.rejects ⟨"Declined", some "validationError"⟩ 120
          else Settle.never) 2 1000 = some r ∧
      r.run.invocations.length = k + 1 ∧
      ((∃ v, raceResult "Request timed out"
            ((fun i => if i = 0 then Settle.rejects ⟨"Declined", some "validationError"⟩ 120
              else Settle.never : Nat → Settle String) k) = .ok v ∧ r.outcome = .returned v) ∨
        (∃ e, raceResult "Request timed out"
            ((fun i => if i = 0 then Settle.rejects ⟨"Declined", some "validationError"⟩ 120
              else Settle.never : Nat → Settle String) k) = .error e ∧
          r.outcome = .thrown (some e))) :=
  ⟨by decide,
    terminal_outcome_is_last_attempt
      (fun i => if i = 0 then Settle.rejects ⟨"Declined", some "validationError"⟩ 120
        else Settle.never) 2 1000 (by decide)⟩

/-- C9: in both versions, an attempt `j + 1` whose operation does not settle
within the 90000 ms limit fails with the timeout error of the wrapper; that
error is specRetryable (its message contains `timed out`, and the test of
`src/index-backup.js` accepts it); when the attempt was made and is not the
last allowed one it is followed by the backoff wait `initialDelayMs * 2 ^ j`
and by attempt `j + 2`, and when it is the last allowed one the timeout error
is what the call throws. -/
theorem timeout_is_retryable_failure {α : Type} (fn : Nat → Settle α) (m d : Int) (j : Nat)
    (hto : timesOut (fn j) = true) :
    (raceResult "Request timed out" (fn j) = .error ⟨"Request timed out", none⟩ ∧
      includes "Request timed out" "timed out" = true ∧
      specRetryable ⟨"Request timed out", none⟩ = true ∧
      ∃ r, Live.retryBraintreeCall fn m d = some r ∧
        (j < r.run.invocations.length →
          ((j : Int) < m - 1 →
            r.run.waits[j]? = some (d * 2 ^ j) ∧
              (r.run.invocations.map (fun v => v.attempt))[j + 1]? = some (j + 2)) ∧
          ((j : Int) = m - 1 →
            r.outcome = .thrown (some ⟨"Request timed out", none⟩) ∧
              r.run.invocations.length = j + 1))) ∧
    (raceResult "Request timed out after 90 seconds" (fn j) =
        .error ⟨"Request timed out after 90 seconds", none⟩ ∧
      includes "Request timed out after 90 seconds" "timed out" = true ∧
      specRetryable ⟨"Request timed out after 90 seconds", none⟩ = true ∧
      Backup.isTimeout ⟨"Request timed out after 90 seconds", none⟩ = true ∧
      ∃ r, Backup.retryBraintreeCall fn m d = some r ∧
        (j < r.run.invocations.length →
          ((j : Int) < m - 1 →
            r.run.waits[j]? = some (d * 2 ^ j) ∧
              (r.run.invocations.map (fun v => v.attempt))[j + 1]? = some (j + 2)) ∧
          ((j : Int) = m - 1 →
            r.outcome = .thrown (some ⟨"Request timed out after 90 seconds", none⟩) ∧
              r.run.invocations.length = j + 1))) := by
  refine ⟨⟨raceResult_timesOut _ _ hto, by decide, by decide, ?_⟩,
    ⟨raceResult_timesOut _ _ hto, by decide, by decide, by decide, ?_⟩⟩
  · rw [Live.retryBraintreeCall, live_loop_eq]
    exact retryLoop_retried _ _ fn m d j _ (raceResult_timesOut _ _ hto) rfl
  · rw [Backup.retryBraintreeCall, backup_loop_eq]
    exact retryLoop_retried _ _ fn m d j _ (raceResult_timesOut _ _ hto) (by decide)

/-- C9 at a concrete input: the default policy and an operation whose first
call never settles and whose second call resolves after 80 ms. -/
theorem timeout_is_retryable_failure_witness :
    timesOut ((fun i => if i = 0 then Settle.never else Settle.resolves "abc" 80 :
      Nat → Settle String) 0) = true ∧
    (∃ r, Live.retryBraintreeCall
        (fun i => if i = 0 then Settle.never else Settle.resolves "abc" 80) 3 1000 = some r ∧
      (0 < r.run.invocations.length →
        (((0 : Nat) : Int) < 3 - 1 →
          r.run.waits[0]? = some (1000 * 2 ^ 0) ∧
            (r.run.invocations.map (fun v => v.attempt))[0 + 1]? = some (0 + 2)) ∧
        (((0 : Nat) : Int) = 3 - 1 →
          r.outcome = .thrown (some ⟨"Request timed out", none⟩) ∧
            r.run.invocations.length = 0 + 1))) ∧
    (∃ r, Backup.retryBraintreeCall
        (fun i => if i = 0 then Settle.never else Settle.resolves "abc" 80) 3 1000 = some r ∧
      (0 < r.run.invocations.length →
        (((0 : Nat) : Int) < 3 - 1 →
          r.run.waits[0]? = some (1000 * 2 ^ 0) ∧
            (r.run.invocations.map (fun v => v.attempt))[0 + 1]? = some (0 + 2)) ∧
        (((0 : Nat) : Int) = 3 - 1 →
          r.outcome = .thrown (some ⟨"Request timed out after 90 seconds", none⟩) ∧
            r.run.invocations.length = 0 + 1))) :=
  ⟨rfl,
    (timeout_is_retryable_failure
      (fun i => if i = 0 then Settle.never else Settle.resolves "abc" 80) 3 1000 0 rfl).1.2.2.2,
    (timeout_is_retryable_failure
      (fun i => if i = 0 then Settle.never else Settle.resolves "abc" 80) 3 1000 0
      rfl).2.2.2.2.2⟩

/-- C10 as stated fails: with the default policy and an operation that
resolves after 80 ms, `retryBraintreeCall` (either version) settles at clock
value 80 with the timeout timer of attempt 1, due at 90000, still pending:
nothing clears it. -/
theorem timeout_timer_left_pending :
    (Live.retryBraintreeCall (fun _ => Settle.resolves "abc" 80) 3 1000).map
      (fun r => (r.outcome, r.run.now, r.run.timers)) =
      some (Outcome.returned "abc", 80, [⟨TimerKind.timeout, 0, 90000⟩]) ∧
    (Backup.retryBraintreeCall (fun _ => Settle.resolves "abc" 80) 3 1000).map
      (fun r => (r.outcome, r.run.now, r.run.timers)) =
      some (Outcome.returned "abc", 80, [⟨TimerKind.timeout, 0, 90000⟩]) := by
  decide

/-- C10, amended: whenever `retryBraintreeCall` (either version) settles, no
backoff timer is pending: every pending timer is a per-attempt timeout timer
that has not fired yet; such timers are never cleared, and when the last
attempt was decided by the operation before its 90000 ms elapsed, the timeout
timer of that attempt is among the pending ones. -/
theorem pending_timers_at_settlement {α : Type} (fn : Nat → Settle α) (m d : Int) :
    (∃ r, Live.retryBraintreeCall fn m d = some r ∧
      (∀ t ∈ r.run.timers, t.kind = TimerKind.timeout ∧ r.run.now < t.due) ∧
      (∀ k, r.run.invocations.length = k + 1 → raceDuration (fn k) < 90000 →
        ∃ t ∈ r.run.timers, t.kind = TimerKind.timeout ∧ t.index = k)) ∧
    (∃ r, Backup.retryBraintreeCall fn m d = some r ∧
      (∀ t ∈ r.run.timers, t.kind = TimerKind.timeout ∧ r.run.now < t.due) ∧
      (∀ k, r.run.invocations.length = k + 1 → raceDuration (fn k) < 90000 →
        ∃ t ∈ r.run.timers, t.kind = TimerKind.timeout ∧ t.index = k)) := by
  constructor
  · obtain ⟨r, hr, _, _, _, _, ht, hp⟩ :=
      retryLoop_total "Request timed out" (fun _ => true) fn m d
    exact ⟨r, by rw [Live.retryBraintreeCall, live_loop_eq]; exact hr, ht, hp⟩
  · obtain ⟨r, hr, _, _, _, _, ht, hp⟩ :=
      retryLoop_total "Request timed out after 90 seconds" Backup.isTimeout fn m d
    exact ⟨r, by rw [Backup.retryBraintreeCall, backup_loop_eq]; exact hr, ht, hp⟩

/-! ## Start times of the attempts -/

@[simp]
theorem backoffWait_now (s : Run) (i : Nat) (delay : Int) :
    (backoffWait s i delay).now = s.now + timerDelay delay := rfl

theorem attemptRace_timersDue {α : Type} (fn : Nat → Settle α) (d : Int) (s : Run) (i : Nat)
    (hnow : s.now = startTime fn d i) (h : TimersDue fn d s) :
    TimersDue fn d (attemptRace s i (fn i)) := by
  intro t ht
  simp only [attemptRace, advance, setTimeout, List.mem_filter, List.mem_append,
    List.mem_singleton, decide_eq_true_eq, timerDelay_timeout] at ht
  obtain ⟨hm, _⟩ := ht
  rcases hm with hm | hm
  · exact h t hm
  · rw [hm]
    exact ⟨rfl, by simp [hnow]⟩

theorem backoffWait_timersDue {α : Type} (fn : Nat → Settle α) (d : Int) (s : Run) (i : Nat)
    (delay : Int) (h : TimersDue fn d s) : TimersDue fn d (backoffWait s i delay) := by
  intro t ht
  simp only [backoffWait, advance, setTimeout, List.mem_filter, List.mem_append,
    List.mem_singleton, decide_eq_true_eq] at ht
  obtain ⟨hm, hd⟩ := ht
  rcases hm with hm | hm
  · exact h t hm
  · rw [hm] at hd
    simp at hd

/-- The invocations of a settled loop are the attempts `1 .. n`, each started
at its start time, and the pending timers are timeout timers due 90000 ms
after the start of their attempt. -/
theorem retryLoop_started {α : Type} (tm : String) (c : JsError → Bool) (fn : Nat → Settle α)
    (m d : Int) :
    ∀ (fuel i : Nat) (s : Run) (le : Option JsError) (r : Settled α),
      retryLoop tm c fn m d fuel i s le = some r →
      s.now = startTime fn d i →
      s.invocations = (List.range i).map
        (fun j => ({ attempt := j + 1, startedAt := startTime fn d j } : Invocation)) →
      TimersDue fn d s →
      r.run.invocations = (List.range r.run.invocations.length).map
          (fun j => ({ attempt := j + 1, startedAt := startTime fn d j } : Invocation)) ∧
        TimersDue fn d r.run := by
  intro fuel
  induction fuel with
  | zero => intro i s le r h; simp [retryLoop] at h
  | succ fuel ih =>
    intro i s le r h hnow hinv ht
    have hstep : (attemptRace s i (fn i)).invocations =
        (List.range (attemptRace s i (fn i)).invocations.length).map
          (fun j => ({ attempt := j + 1, startedAt := startTime fn d j } : Invocation)) := by
      simp [hinv, hnow, List.range_succ]
    have hdue := attemptRace_timersDue fn d s i hnow ht
    simp only [retryLoop] at h
    split at h
    · split at h
      · cases h; exact ⟨hstep, hdue⟩
      · split at h
        · cases h; exact ⟨hstep, hdue⟩
        · split at h
          · refine ih (i + 1) _ _ r h ?_ ?_ (backoffWait_timersDue fn d _ i _ hdue)
            · simp [hnow, startTime]
            · simp [hinv, hnow, List.range_succ]
          · cases h; exact ⟨hstep, hdue⟩
    · cases h
      refine ⟨?_, ht⟩
      simp [hinv]

/-- A whole call: the invocations with their start times, and the pending
timers. -/
theorem retryLoop_call_started {α : Type} (tm : String) (c : JsError → Bool)
    (fn : Nat → Settle α) (m d : Int) :
    ∃ r, retryLoop tm c fn m d (m.toNat + 1) 0 Run.init none = some r ∧
      r.run.invocations = (List.range r.run.invocations.length).map
          (fun j => ({ attempt := j + 1, startedAt := startTime fn d j } : Invocation)) ∧
      TimersDue fn d r.run := by
  obtain ⟨r, hr, _⟩ := retryLoop_total tm c fn m d
  refine ⟨r, hr, retryLoop_started tm c fn m d _ 0 Run.init none r hr rfl rfl ?_⟩
  intro t ht
  simp [Run.init] at ht

/-- An attempt has ended, and its backoff wait has elapsed, before any later
attempt starts. -/
theorem startTime_lt {α : Type} (fn : Nat → Settle α) (d : Int) (j : Nat) :
    ∀ j2, j < j2 → startTime fn d j + raceDuration (fn j) < startTime fn d j2 := by
  have hpos : ∀ x : Int, 0 < timerDelay x := by
    intro x
    unfold timerDelay
    split <;> omega
  intro j2
  induction j2 with
  | zero => intro h; omega
  | succ n ih =>
    intro h
    simp only [startTime]
    have h1 := hpos (d * 2 ^ n)
    rcases Nat.lt_or_ge j n with hlt | hge
    · have := ih hlt
      omega
    · have hjn : j = n := by omega
      subst hjn
      omega

/-- An operation that settles within the limit has settled when a later
attempt starts. -/
theorem settled_before_next {α : Type} (fn : Nat → Settle α) (d : Int) (j j2 : Nat)
    (h : j < j2) (hto : timesOut (fn j) = false) :
    unsettledAt (fn j) (startTime fn d j) (startTime fn d j2) = false := by
  have hlt := startTime_lt fn d j j2 h
  cases hf : fn j with
  | resolves v t =>
    rw [hf] at hlt hto
    have ht : t < attemptTimeoutMs := by simpa [timesOut] using hto
    simp only [raceDuration, if_pos ht] at hlt
    simp only [unsettledAt, decide_eq_false_iff_not]
    omega
  | rejects e t =>
    rw [hf] at hlt hto
    have ht : t < attemptTimeoutMs := by simpa [timesOut] using hto
    simp only [raceDuration, if_pos ht] at hlt
    simp only [unsettledAt, decide_eq_false_iff_not]
    omega
  | never => rw [hf] at hto; simp [timesOut] at hto

/-! ## The claims, continued -/

/-- The whole schedule of a call: the delays given to `setTimeout`, the bound
on the retried attempts, a retried failure that is not the last allowed attempt
is followed by a further attempt, and each attempt after the first starts when
the race of the attempt before it has ended and the timer of its backoff wait
has fired. -/
theorem retryLoop_schedule {α : Type} (tm : String) (c : JsError → Bool) (fn : Nat → Settle α)
    (m d : Int) :
    ∃ r, retryLoop tm c fn m d (m.toNat + 1) 0 Run.init none = some r ∧
      r.run.waits = (List.range (r.run.invocations.length - 1)).map (fun i => d * 2 ^ i) ∧
      (∀ i : Nat, i + 1 < r.run.invocations.length → (i : Int) < m - 1) ∧
      (∀ (i : Nat) (e : JsError), i < r.run.invocations.length →
        raceResult tm (fn i) = .error e → (i : Int) < m - 1 → c e = true →
        i + 1 < r.run.invocations.length) ∧
      (∀ (i : Nat) (a b : Invocation), r.run.invocations[i]? = some a →
        r.run.invocations[i + 1]? = some b →
        a.attempt = i + 1 ∧ b.attempt = i + 2 ∧
          b.startedAt = a.startedAt + raceDuration (fn i) + timerDelay (d * 2 ^ i)) := by
  obtain ⟨r, hr, _, _, hw, hb, _⟩ := retryLoop_total tm c fn m d
  have hst := (retryLoop_started tm c fn m d _ 0 Run.init none r hr rfl rfl
    (by intro t ht; simp [Run.init] at ht)).1
  refine ⟨r, hr, hw, ?_, ?_, ?_⟩
  · intro i hi
    apply hb
    rw [hw]
    simp only [List.length_map, List.length_range]
    omega
  · intro i e hi he hlast hc
    rcases le_or_lt m 0 with hm | hm
    · have h0 := retryLoop_call_nonpos tm c fn m d hm
      rw [hr] at h0
      cases h0
      simp [Run.init] at hi
    · obtain ⟨r2, k, hr2, hkm, hpre, hfin, hinv, hw2, _, _⟩ :=
        retryLoop_call tm c fn m d (by omega)
      rw [hr] at hr2
      cases hr2
      exact ((retryLoop_decision tm c fn m d r k i e hkm hpre hfin hinv hw2 hi he).1 hlast hc).1
  · intro i a b ha hb2
    rw [hst] at ha hb2
    simp only [List.getElem?_map] at ha hb2
    have hi : i + 1 < r.run.invocations.length := by
      by_contra hcon
      rw [List.getElem?_eq_none (by simp; omega)] at hb2
      simp at hb2
    rw [List.getElem?_range (by omega)] at ha
    rw [List.getElem?_range hi] at hb2
    simp only [Option.map_some', Option.some.injEq] at ha hb2
    subst ha
    subst hb2
    exact ⟨rfl, rfl, rfl⟩

/-- C5 as stated fails: with `initialDelayMs = 0` (and three attempts allowed)
the delay `0 * 2 ^ 0 = 0` is given to `setTimeout`, and a timer with a delay
below 1 fires after 1 ms: the first attempt fails at clock value 120 and the
second attempt starts at 121, a wait of 1 ms, not of 0 ms. -/
theorem zero_delay_waits_one_millisecond :
    (Live.retryBraintreeCall
        (fun i => if i = 0 then Settle.rejects ⟨"timeout", some "unexpectedError"⟩ 120
          else Settle.resolves "abc" 80) 3 0).map
      (fun r => (r.outcome, r.run.invocations, r.run.waits)) =
      some (Outcome.returned "abc", [⟨1, 0⟩, ⟨2, 121⟩], [0]) ∧
    raceDuration (Settle.rejects ⟨"timeout", some "unexpectedError"⟩ 120 : Settle String) = 120 ∧
    ((121 : Int) - (0 + 120) ≠ 0 * 2 ^ 0) := by
  decide

/-- C5, amended: in both versions of `retryBraintreeCall`, for every operation
and every policy, the delay given to `setTimeout` after a retried failure of
the attempt with 0-based index `i` is `initialDelayMs * 2 ^ i`, every such `i`
is below `maxRetries - 1`, and a failure that is retried and is not the last
allowed attempt is followed by a further attempt; when that delay is in the
range `1 .. 2 ^ 31 - 1`, the next attempt starts exactly
`initialDelayMs * 2 ^ i` ms after the race of attempt `i` has ended, and
outside that range it starts 1 ms after it.  With `maxRetries = 3` and
`initialDelayMs = 1000`, two retryable failures followed by a success give the
waits `[1000, 2000]`, three invocations (started at the clock values 0, 1120
and 3240 when a failure takes 120 ms) and the value of the third attempt. -/
theorem backoff_schedule {α : Type} (fn : Nat → Settle α) (m d : Int) :
    (∃ r, Live.retryBraintreeCall fn m d = some r ∧
      r.run.waits = (List.range (r.run.invocations.length - 1)).map (fun i => d * 2 ^ i) ∧
      (∀ i : Nat, i + 1 < r.run.invocations.length → (i : Int) < m - 1) ∧
      (∀ (i : Nat) (e : JsError), i < r.run.invocations.length →
        raceResult "Request timed out" (fn i) = .error e → (i : Int) < m - 1 →
        i + 1 < r.run.invocations.length) ∧
      (∀ (i : Nat) (a b : Invocation), r.run.invocations[i]? = some a →
        r.run.invocations[i + 1]? = some b →
        a.attempt = i + 1 ∧ b.attempt = i + 2 ∧
        (1 ≤ d * 2 ^ i → d * 2 ^ i ≤ 2147483647 →
          (b.startedAt : Int) - (a.startedAt + raceDuration (fn i)) = d * 2 ^ i) ∧
        (d * 2 ^ i < 1 ∨ 2147483647 < d * 2 ^ i →
          (b.startedAt : Int) - (a.startedAt + raceDuration (fn i)) = 1))) ∧
    (∃ r, Backup.retryBraintreeCall fn m d = some r ∧
      r.run.waits = (List.range (r.run.invocations.length - 1)).map (fun i => d * 2 ^ i) ∧
      (∀ i : Nat, i + 1 < r.run.invocations.length → (i : Int) < m - 1) ∧
      (∀ (i : Nat) (e : JsError), i < r.run.invocations.length →
        raceResult "Request timed out after 90 seconds" (fn i) = .error e → (i : Int) < m - 1 →
        Backup.isTimeout e = true → i + 1 < r.run.invocations.length) ∧
      (∀ (i : Nat) (a b : Invocation), r.run.invocations[i]? = some a →
        r.run.invocations[i + 1]? = some b →
        a.attempt = i + 1 ∧ b.attempt = i + 2 ∧
        (1 ≤ d * 2 ^ i → d * 2 ^ i ≤ 2147483647 →
          (b.startedAt : Int) - (a.startedAt + raceDuration (fn i)) = d * 2 ^ i) ∧
        (d * 2 ^ i < 1 ∨ 2147483647 < d * 2 ^ i →
          (b.startedAt : Int) - (a.startedAt + raceDuration (fn i)) = 1))) ∧
    (Live.retryBraintreeCall
        (fun i => if i < 2 then Settle.rejects ⟨"timeout", some "unexpectedError"⟩ 120
          else Settle.resolves "abc" 80) 3 1000).map
      (fun r => (r.outcome, r.run.invocations, r.run.waits)) =
      some (Outcome.returned "abc", [⟨1, 0⟩, ⟨2, 1120⟩, ⟨3, 3240⟩], [1000, 2000]) ∧
    (Backup.retryBraintreeCall
        (fun i => if i < 2 then Settle.rejects ⟨"timeout", some "unexpectedError"⟩ 120
          else Settle.resolves "abc" 80) 3 1000).map
      (fun r => (r.outcome, r.run.invocations, r.run.waits)) =
      some (Outcome.returned "abc", [⟨1, 0⟩, ⟨2, 1120⟩, ⟨3, 3240⟩], [1000, 2000]) := by
  have gap : ∀ (x : Int) (s q b : Nat), b = s + q + timerDelay x →
      (1 ≤ x → x ≤ 2147483647 → (b : Int) - (s + q) = x) ∧
      (x < 1 ∨ 2147483647 < x → (b : Int) - (s + q) = 1) := by
    intro x s q b hb
    constructor
    · intro h1 h2
      have ht : timerDelay x = x.toNat := by
        unfold timerDelay
        rw [if_pos ⟨h1, h2⟩]
      rw [hb, ht]
      push_cast
      rw [Int.toNat_of_nonneg (by omega)]
      ring
    · intro h1
      have ht : timerDelay x = 1 := by
        unfold timerDelay
        rw [if_neg (by omega)]
      rw [hb, ht]
      push_cast
      ring
  refine ⟨?_, ?_, by decide, by decide⟩
  · obtain ⟨r, hr, hw, hb, hnext, hstart⟩ :=
      retryLoop_schedule "Request timed out" (fun _ => true) fn m d
    refine ⟨r, by rw [Live.retryBraintreeCall, live_loop_eq]; exact hr, hw, hb,
      fun i e hi he hl => hnext i e hi he hl rfl, ?_⟩
    intro i a b ha hb2
    obtain ⟨h1, h2, h3⟩ := hstart i a b ha hb2
    exact ⟨h1, h2, gap _ _ _ _ h3⟩
  · obtain ⟨r, hr, hw, hb, hnext, hstart⟩ :=
      retryLoop_schedule "Request timed out after 90 seconds" Backup.isTimeout fn m d
    refine ⟨r, by rw [Backup.retryBraintreeCall, backup_loop_eq]; exact hr, hw, hb, hnext, ?_⟩
    intro i a b ha hb2
    obtain ⟨h1, h2, h3⟩ := hstart i a b ha hb2
    exact ⟨h1, h2, gap _ _ _ _ h3⟩

/-- C11 as stated fails: with the default policy and an operation whose first
call never settles, attempt 1 ends when its timeout fires at 90000, the
wrapper waits 1000 ms and starts attempt 2 at clock value 91000 while the
operation invoked by attempt 1 is still unsettled. -/
theorem next_attempt_starts_while_operation_unsettled :
    (Live.retryBraintreeCall
        (fun i => if i = 0 then Settle.never else Settle.resolves "abc" 80) 3 1000).map
      (fun r => (r.outcome, r.run.invocations)) =
      some (Outcome.returned "abc", [⟨1, 0⟩, ⟨2, 91000⟩]) ∧
    unsettledAt (Settle.never : Settle String) 0 91000 = true := by
  decide

/-- C11, amended: within one call of `retryBraintreeCall` (either version)
the attempts are made one after the other: attempt `j + 1` starts at
`startTime j`, and a later attempt starts only after the race of attempt
`j + 1` has settled and its backoff wait has elapsed; an operation that
settles within the 90000 ms limit has settled before any later attempt starts.
(An operation whose attempt ended by the timeout is not cancelled and may
still be running then.) -/
theorem attempts_are_sequential {α : Type} (fn : Nat → Settle α) (m d : Int) :
    (∃ r, Live.retryBraintreeCall fn m d = some r ∧
      r.run.invocations = (List.range r.run.invocations.length).map
        (fun j => ({ attempt := j + 1, startedAt := startTime fn d j } : Invocation)) ∧
      ∀ j j2, j < j2 → j2 < r.run.invocations.length →
        startTime fn d j + raceDuration (fn j) < startTime fn d j2 ∧
        (timesOut (fn j) = false →
          unsettledAt (fn j) (startTime fn d j) (startTime fn d j2) = false)) ∧
    (∃ r, Backup.retryBraintreeCall fn m d = some r ∧
      r.run.invocations = (List.range r.run.invocations.length).map
        (fun j => ({ attempt := j + 1, startedAt := startTime fn d j } : Invocation)) ∧
      ∀ j j2, j < j2 → j2 < r.run.invocations.length →
        startTime fn d j + raceDuration (fn j) < startTime fn d j2 ∧
        (timesOut (fn j) = false →
          unsettledAt (fn j) (startTime fn d j) (startTime fn d j2) = false)) := by
  constructor
  · obtain ⟨r, hr, hinv, _⟩ := retryLoop_call_started "Request timed out" (fun _ => true) fn m d
    exact ⟨r, by rw [Live.retryBraintreeCall, live_loop_eq]; exact hr, hinv,
      fun j j2 h _ => ⟨startTime_lt fn d j j2 h, settled_before_next fn d j j2 h⟩⟩
  · obtain ⟨r, hr, hinv, _⟩ :=
      retryLoop_call_started "Request timed out after 90 seconds" Backup.isTimeout fn m d
    exact ⟨r, by rw [Backup.retryBraintreeCall, backup_loop_eq]; exact hr, hinv,
      fun j j2 h _ => ⟨startTime_lt fn d j j2 h, settled_before_next fn d j j2 h⟩⟩

/-- C17: `retryBraintreeCall` called with only the operation is
`retryBraintreeCall(operation, 3, 1000)` (either version), and for every
`maxRetries` and `initialDelayMs` the timeout timer of each attempt is set to
90000 ms: every timer pending when the call settles is a timeout timer due
exactly 90000 ms after the start of its attempt, and an operation that has
not settled by then ends the attempt after exactly 90000 ms. -/
theorem policy_defaults {α : Type} (fn : Nat → Settle α) (m d : Int) :
    Live.retryBraintreeCallArgs fn none none = Live.retryBraintreeCall fn 3 1000 ∧
    Backup.retryBraintreeCallArgs fn none none = Backup.retryBraintreeCall fn 3 1000 ∧
    (∃ r, Live.retryBraintreeCallArgs fn (some m) (some d) = some r ∧
      (∀ t ∈ r.run.timers, t.kind = TimerKind.timeout ∧
        t.due = startTime fn d t.index + 90000)) ∧
    (∃ r, Backup.retryBraintreeCallArgs fn (some m) (some d) = some r ∧
      (∀ t ∈ r.run.timers, t.kind = TimerKind.timeout ∧
        t.due = startTime fn d t.index + 90000)) ∧
    (∀ j, timesOut (fn j) = true → raceDuration (fn j) = 90000) := by
  refine ⟨rfl, rfl, ?_, ?_, ?_⟩
  · obtain ⟨r, hr, _, ht⟩ := retryLoop_call_started "Request timed out" (fun _ => true) fn m d
    exact ⟨r, by
      simp only [Live.retryBraintreeCallArgs, Option.getD_some, Live.retryBraintreeCall,
        live_loop_eq]
      exact hr, ht⟩
  · obtain ⟨r, hr, _, ht⟩ :=
      retryLoop_call_started "Request timed out after 90 seconds" Backup.isTimeout fn m d
    exact ⟨r, by
      simp only [Backup.retryBraintreeCallArgs, Option.getD_some, Backup.retryBraintreeCall,
        backup_loop_eq]
      exact hr, ht⟩
  · intro j hj
    cases hf : fn j with
    | resolves v t =>
      rw [hf] at hj
      have ht : ¬ t < 90000 := by simpa [timesOut, attemptTimeoutMs] using hj
      simp only [raceDuration, attemptTimeoutMs, if_neg ht]
    | rejects e t =>
      rw [hf] at hj
      have ht : ¬ t < 90000 := by simpa [timesOut, attemptTimeoutMs] using hj
      simp only [raceDuration, attemptTimeoutMs, if_neg ht]
    | never => rfl

/-- C12: each of the handlers of `POST /api/subscribe`,
`GET /api/subscription/status`, `PUT /api/subscription/update`,
`POST /api/subscription/cancel` and `POST /api/parking-payment` in
`src/index.js` answers a request in which one of its required fields is
missing with status 400 and `success: false`, without any gateway call. -/
theorem handlers_validate_before_gateway (env : Env) (gw : Gateway)
    (body query : List (String × JsValue)) :
    ((field body "paymentMethodNonce" = .undefined ∨ field body "planId" = .undefined ∨
        field body "userId" = .undefined) →
      ∃ r, Live.postSubscribe gw body = some r ∧ r.response.status = 400 ∧
        r.response.bodyField "success" = .bool false ∧ r.calls = []) ∧
    (field query "userId" = .undefined →
      ∃ r, Live.getSubscriptionStatus env gw query = some r ∧ r.response.status = 400 ∧
        r.response.bodyField "success" = .bool false ∧ r.calls = []) ∧
    ((field body "subscriptionId" = .undefined ∨ field body "newPlanId" = .undefined) →
      ∃ r, Live.putSubscriptionUpdate gw body = some r ∧ r.response.status = 400 ∧
        r.response.bodyField "success" = .bool false ∧ r.calls = []) ∧
    (field body "subscriptionId" = .undefined →
      ∃ r, Live.postSubscriptionCancel gw body = some r ∧ r.response.status = 400 ∧
        r.response.bodyField "success" = .bool false ∧ r.calls = []) ∧
    ((field body "nonce" = .undefined ∨ field body "amount" = .undefined ∨
        field body "userId" = .undefined) →
      ∃ r, Live.postParkingPayment gw body = some r ∧ r.response.status = 400 ∧
        r.response.bodyField "success" = .bool false ∧ r.calls = []) := by
  refine ⟨?_, ?_, ?_, ?_, ?_⟩
  · intro h
    have hc : (!truthy (field body "paymentMethodNonce") || !truthy (field body "planId") ||
        !truthy (field body "userId")) = true := by
      rcases h with h | h | h <;> simp [h, truthy]
    simp only [Live.postSubscribe, hc, if_true]
    exact ⟨_, rfl, rfl, rfl, rfl⟩
  · intro h
    have hc : (!truthy (field query "userId")) = true := by simp [h, truthy]
    simp only [Live.getSubscriptionStatus, hc, if_true]
    exact ⟨_, rfl, rfl, rfl, rfl⟩
  · intro h
    have hc : (!truthy (field body "subscriptionId") || !truthy (field body "newPlanId")) =
        true := by
      rcases h with h | h <;> simp [h, truthy]
    simp only [Live.putSubscriptionUpdate, hc, if_true]
    exact ⟨_, rfl, rfl, rfl, rfl⟩
  · intro h
    have hc : (!truthy (field body "subscriptionId")) = true := by simp [h, truthy]
    simp only [Live.postSubscriptionCancel, hc, if_true]
    exact ⟨_, rfl, rfl, rfl, rfl⟩
  · intro h
    have hc : (!truthy (field body "nonce") || !truthy (field body "amount") ||
        !truthy (field body "userId")) = true := by
      rcases h with h | h | h <;> simp [h, truthy]
    simp only [Live.postParkingPayment, hc, if_true]
    exact ⟨_, rfl, rfl, rfl, rfl⟩

/-- C18, the code at the failing input: `POST /api/tokenize` of `src/index.js`
with a body without `cardNumber` (the other card fields present or not) is
answered with status 500 and the message of the `TypeError` that
`cardNumber.substring` throws in the `console.log` before the validation, not
with status 400 and the list of required fields; no gateway call is made. -/
theorem tokenize_without_cardNumber_is_server_error (env : Env) (gw : Gateway)
    (month year cvv : JsValue) :
    Live.postTokenize env gw
        [("expirationMonth", month), ("expirationYear", year), ("cvv", cvv)] =
      some { response :=
               { status := 500
                 body := .obj [("success", .bool false),
                   ("error", .str "Error tokenizando tarjeta"),
                   ("message", .str env.typeErrorMessage)] }
             calls := [] } ∧
    Live.postTokenize env gw [] =
      some { response :=
               { status := 500
                 body := .obj [("success", .bool false),
                   ("error", .str "Error tokenizando tarjeta"),
                   ("message", .str env.typeErrorMessage)] }
             calls := [] } := by
  constructor <;> rfl

/-- C19, the code at the failing input: `POST /api/payment`, which
`runAllTests` of `src/test-endpoints.js` requests three times, is not a route
of `src/index.js`: the request falls through to the last handler and is
answered with status 404.  The route is one of `src/index-backup.js`. -/
theorem test_script_requests_unregistered_route (env : Env) (gw : Gateway)
    (body query : List (String × JsValue)) :
    ("POST", "/api/payment") ∈ testRequests ∧
    Live.app env gw { method := "POST", path := "/api/payment", body := body, query := query } =
      some Live.notFound ∧
    Live.notFound.response.status = 404 ∧
    ("POST", "/api/payment") ∈ Backup.routes := by
  refine ⟨by decide, ?_, rfl, by decide⟩
  rfl

/-! ## The wrapper with the default policy -/

/-- With the default policy, an operation whose first attempt fails and whose
second attempt succeeds is invoked twice, with one wait of 1000 ms between the
attempts, and its value is returned. -/
theorem live_default_retry_once {α : Type} (fn : Nat → Settle α) (e : JsError) (v : α)
    (h0 : raceResult "Request timed out" (fn 0) = .error e)
    (h1 : raceResult "Request timed out" (fn 1) = .ok v) :
    ∃ run, Live.retryBraintreeCallArgs fn none none = some { outcome := .returned v, run := run } ∧
      run.invocations.map (fun i => i.attempt) = [1, 2] ∧ run.waits = [1000] := by
  obtain ⟨r, hr, hfin, hinv, hw⟩ :=
    retryLoop_stops_at "Request timed out" (fun _ => true) fn 3 1000 1 (by decide)
      (fun j hj => by
        have hj0 : j = 0 := by omega
        subst hj0
        exact ⟨e, h0, rfl⟩)
      (Or.inl ⟨v, h1⟩)
  have hout : r.outcome = .returned v := by
    rcases hfin with ⟨v2, hv2, ho⟩ | ⟨e2, he2, _⟩
    · rw [h1] at hv2; cases hv2; exact ho
    · rw [h1] at he2; cases he2
  refine ⟨r.run, ?_, hinv, ?_⟩
  · rw [Live.retryBraintreeCallArgs, Live.retryBraintreeCall, live_loop_eq]
    simp only [Option.getD_none]
    rw [show ((3 : Int).toNat + 1) = (3 : Int).toNat + 1 from rfl, hr, ← hout]
  · rw [hw]; decide

/-- With the default policy, an operation that fails on each of its three
attempts is invoked three times, with waits of 1000 ms and 2000 ms between the
attempts, and the error of the third attempt is thrown. -/
theorem live_default_exhausted {α : Type} (fn : Nat → Settle α) (e0 e1 e2 : JsError)
    (h0 : raceResult "Request timed out" (fn 0) = .error e0)
    (h1 : raceResult "Request timed out" (fn 1) = .error e1)
    (h2 : raceResult "Request timed out" (fn 2) = .error e2) :
    ∃ run, Live.retryBraintreeCallArgs fn none none =
        some { outcome := .thrown (some e2), run := run } ∧
      run.invocations.map (fun i => i.attempt) = [1, 2, 3] ∧ run.waits = [1000, 2000] := by
  obtain ⟨r, hr, hfin, hinv, hw⟩ :=
    retryLoop_stops_at "Request timed out" (fun _ => true) fn 3 1000 2 (by decide)
      (fun j hj => by
        have hj0 : j = 0 ∨ j = 1 := by omega
        rcases hj0 with hj0 | hj0
        · subst hj0; exact ⟨e0, h0, rfl⟩
        · subst hj0; exact ⟨e1, h1, rfl⟩)
      (Or.inr (by decide))
  have hout : r.outcome = .thrown (some e2) := by
    rcases hfin with ⟨v2, hv2, _⟩ | ⟨e3, he3, ho, _⟩
    · rw [h2] at hv2; cases hv2
    · rw [h2] at he3; cases he3; exact ho
  refine ⟨r.run, ?_, hinv, ?_⟩
  · rw [Live.retryBraintreeCallArgs, Live.retryBraintreeCall, live_loop_eq]
    simp only [Option.getD_none]
    rw [show ((3 : Int).toNat + 1) = (3 : Int).toNat + 1 from rfl, hr, ← hout]
  · rw [hw]; decide

/-- The calls of the attempts, one list per invocation. -/
theorem flatMap_of_attempts {β : Type} (l : List Invocation) (f : Nat → List β) :
    l.flatMap (fun v => f v.attempt) = (l.map (fun v => v.attempt)).flatMap f := by
  induction l with
  | nil => rfl
  | cons x rest ih => simp [List.flatMap_cons, ih]

theorem map_const_of_length_two {α β : Type} (l : List α) (c : β) (h : l.length = 2) :
    l.map (fun _ => c) = [c, c] := by
  match l, h with
  | [_, _], _ => rfl

theorem map_const_of_length_three {α β : Type} (l : List α) (c : β) (h : l.length = 3) :
    l.map (fun _ => c) = [c, c, c] := by
  match l, h with
  | [_, _, _], _ => rfl

/-- C13 as stated fails: `POST /api/parking-payment` of `src/index.js` calls
`gateway.transaction.sale` directly, not through `retryBraintreeCall`.  With
the request of the test script and a gateway whose first sale call fails with
a retryable error and whose second sale call would succeed, the handler makes
one sale call and answers with status 500. -/
theorem parking_payment_is_not_retried :
    specRetryable ⟨"Request timeout", some "unexpectedError"⟩ = true ∧
    (Live.postParkingPayment
        { Gateway.silent with
          customerFind := fun _ _ => .resolves { paymentMethods := some [] } 50
          transactionSale := fun _ i =>
            if i = 0 then .rejects ⟨"Request timeout", some "unexpectedError"⟩ 120
            else .resolves (.success ⟨.str "tx1", .str "5.50", .str "submitted_for_settlement"⟩) 80 }
        parkingTestBody).map
      (fun r => (r.response.status, r.response.bodyField "success", r.calls.length)) =
      some (500, JsValue.bool false, 2) := by
  constructor
  · decide
  · rfl

/-- C13, amended: of the handlers of `src/index.js`, `POST /api/token`,
`GET /api/plans` and `POST /api/tokenize` execute their gateway operation
through `retryBraintreeCall` with the default policy, `maxRetries = 3` and
`initialDelayMs = 1000`: an operation that fails once and then succeeds is
invoked twice, with a wait of 1000 ms in between, and gives the success
response; an operation that fails on every attempt is invoked exactly three
times, with waits of 1000 ms and 2000 ms, and gives the failure response.
`PUT /api/subscription/update`, `POST /api/subscription/cancel`,
`GET /api/subscription/status`, `POST /api/parking-payment` and
`POST /api/subscribe` call the gateway directly: for a request that reaches
the gateway call (its identifiers and its amount have a string form), an error
thrown by the first call of the operation gives the failure response at once,
whatever a second call would give. -/
theorem wrapper_use_by_handlers (env : Env) (gw : Gateway) (body query : List (String × JsValue))
    (e : JsError) (t : Nat) :
    (Live.tokenCall gw (Live.tokenOptions body) =
        Live.retryBraintreeCall (fun i => gw.clientTokenGenerate (Live.tokenOptions body) i) 3 1000 ∧
      Live.plansCall gw = Live.retryBraintreeCall (fun i => gw.planAll i) 3 1000 ∧
      Live.tokenizeCall gw (Live.tokenizeParams body) =
        Live.retryBraintreeCall (Live.tokenizeOperation gw (Live.tokenizeParams body)) 3 1000) ∧
    (∀ v, raceResult "Request timed out"
          (gw.clientTokenGenerate (Live.tokenOptions body) 0) = .error e →
        raceResult "Request timed out"
          (gw.clientTokenGenerate (Live.tokenOptions body) 1) = .ok v →
        ∃ settled r, Live.tokenCall gw (Live.tokenOptions body) = some settled ∧
          settled.run.invocations.map (fun i => i.attempt) = [1, 2] ∧
          settled.run.waits = [1000] ∧
          Live.postToken gw body = some r ∧ r.response.status = 200 ∧
          r.response.bodyField "success" = .bool true ∧
          r.response.bodyField "clientToken" = v ∧
          r.calls = [.clientTokenGenerate (Live.tokenOptions body),
            .clientTokenGenerate (Live.tokenOptions body)]) ∧
    (∀ e0 e1, raceResult "Request timed out"
          (gw.clientTokenGenerate (Live.tokenOptions body) 0) = .error e0 →
        raceResult "Request timed out"
          (gw.clientTokenGenerate (Live.tokenOptions body) 1) = .error e1 →
        raceResult "Request timed out"
          (gw.clientTokenGenerate (Live.tokenOptions body) 2) = .error e →
        ∃ settled r, Live.tokenCall gw (Live.tokenOptions body) = some settled ∧
          settled.run.invocations.map (fun i => i.attempt) = [1, 2, 3] ∧
          settled.run.waits = [1000, 2000] ∧
          Live.postToken gw body = some r ∧ r.response.status = 500 ∧
          r.response.bodyField "success" = .bool false ∧
          r.calls = [.clientTokenGenerate (Live.tokenOptions body),
            .clientTokenGenerate (Live.tokenOptions body),
            .clientTokenGenerate (Live.tokenOptions body)]) ∧
    (∀ plans, raceResult "Request timed out" (gw.planAll 0) = .error e →
        raceResult "Request timed out" (gw.planAll 1) = .ok plans →
        ∃ settled r, Live.plansCall gw = some settled ∧
          settled.run.invocations.map (fun i => i.attempt) = [1, 2] ∧
          settled.run.waits = [1000] ∧
          Live.getPlans gw = some r ∧ r.response.status = 200 ∧
          r.response.bodyField "success" = .bool true ∧ r.calls = [.planAll, .planAll]) ∧
    (∀ e0 e1, raceResult "Request timed out" (gw.planAll 0) = .error e0 →
        raceResult "Request timed out" (gw.planAll 1) = .error e1 →
        raceResult "Request timed out" (gw.planAll 2) = .error e →
        ∃ settled r, Live.plansCall gw = some settled ∧
          settled.run.invocations.map (fun i => i.attempt) = [1, 2, 3] ∧
          settled.run.waits = [1000, 2000] ∧
          Live.getPlans gw = some r ∧ r.response.status = 500 ∧
          r.response.bodyField "success" = .bool false ∧
          r.calls = [.planAll, .planAll, .planAll]) ∧
    (∀ number month year paymentMethod nonce, field body "cardNumber" = .str number →
        toStr (field body "expirationMonth") = some month →
        toStr (field body "expirationYear") = some year →
        truthy (field body "cardNumber") = true → truthy (field body "expirationMonth") = true →
        truthy (field body "expirationYear") = true → truthy (field body "cvv") = true →
        raceResult "Request timed out"
          (Live.tokenizeOperation gw (Live.tokenizeParams body) 0) = .error e →
        raceResult "Request timed out"
          (Live.tokenizeOperation gw (Live.tokenizeParams body) 1) = .ok (.success paymentMethod) →
        paymentMethod.nonce = .str nonce →
        ∃ settled r, Live.tokenizeCall gw (Live.tokenizeParams body) = some settled ∧
          settled.run.invocations.map (fun i => i.attempt) = [1, 2] ∧
          settled.run.waits = [1000] ∧
          Live.postTokenize env gw body = some r ∧ r.response.status = 200 ∧
          r.response.bodyField "success" = .bool true ∧
          r.response.bodyField "nonce" = .str nonce ∧
          r.calls = Live.tokenizeCalls gw (Live.tokenizeParams body) 0 ++
            Live.tokenizeCalls gw (Live.tokenizeParams body) 1) ∧
    (∀ number month year e0 e1, field body "cardNumber" = .str number →
        toStr (field body "expirationMonth") = some month →
        toStr (field body "expirationYear") = some year →
        truthy (field body "cardNumber") = true → truthy (field body "expirationMonth") = true →
        truthy (field body "expirationYear") = true → truthy (field body "cvv") = true →
        raceResult "Request timed out"
          (Live.tokenizeOperation gw (Live.tokenizeParams body) 0) = .error e0 →
        raceResult "Request timed out"
          (Live.tokenizeOperation gw (Live.tokenizeParams body) 1) = .error e1 →
        raceResult "Request timed out"
          (Live.tokenizeOperation gw (Live.tokenizeParams body) 2) = .error e →
        ∃ settled r, Live.tokenizeCall gw (Live.tokenizeParams body) = some settled ∧
          settled.run.invocations.map (fun i => i.attempt) = [1, 2, 3] ∧
          settled.run.waits = [1000, 2000] ∧
          Live.postTokenize env gw body = some r ∧ r.response.status = 500 ∧
          r.response.bodyField "success" = .bool false ∧
          r.calls = Live.tokenizeCalls gw (Live.tokenizeParams body) 0 ++
            (Live.tokenizeCalls gw (Live.tokenizeParams body) 1 ++
              Live.tokenizeCalls gw (Live.tokenizeParams body) 2)) ∧
    (∀ id plan, truthy (field body "subscriptionId") = true →
        truthy (field body "newPlanId") = true →
        toStr (field body "subscriptionId") = some id →
        toStr (field body "newPlanId") = some plan →
        gw.subscriptionUpdate (field body "subscriptionId")
          (.obj [("planId", field body "newPlanId")]) 0 = .rejects e t →
        ∃ r, Live.putSubscriptionUpdate gw body = some r ∧ r.response.status = 500 ∧
          r.response.bodyField "success" = .bool false ∧
          r.calls = [.subscriptionUpdate (field body "subscriptionId")
            (.obj [("planId", field body "newPlanId")])]) ∧
    (∀ id, truthy (field body "subscriptionId") = true →
        toStr (field body "subscriptionId") = some id → e.type ≠ some "notFoundError" →
        gw.subscriptionCancel (field body "subscriptionId") 0 = .rejects e t →
        ∃ r, Live.postSubscriptionCancel gw body = some r ∧ r.response.status = 500 ∧
          r.response.bodyField "success" = .bool false ∧
          r.calls = [.subscriptionCancel (field body "subscriptionId")]) ∧
    (∀ id, truthy (field query "userId") = true → toStr (field query "userId") = some id →
        e.type ≠ some "notFoundError" →
        gw.customerFind (field query "userId") 0 = .rejects e t →
        ∃ r, Live.getSubscriptionStatus env gw query = some r ∧ r.response.status = 500 ∧
          r.response.bodyField "success" = .bool false ∧
          r.calls = [.customerFind (field query "userId")]) ∧
    (∀ customer t0 amountText, truthy (field body "nonce") = true →
        truthy (field body "amount") = true → truthy (field body "userId") = true →
        toStr (field body "amount") = some amountText →
        gw.customerFind (field body "userId") 0 = .resolves customer t0 →
        gw.transactionSale
          (Live.saleParams (field body "nonce") amountText (field body "userId")) 0 =
          .rejects e t →
        ∃ r, Live.postParkingPayment gw body = some r ∧ r.response.status = 500 ∧
          r.response.bodyField "success" = .bool false ∧
          r.calls = [.customerFind (field body "userId"),
            .transactionSale
              (Live.saleParams (field body "nonce") amountText (field body "userId"))]) ∧
    (∀ first rest t0, truthy (field body "paymentMethodNonce") = true →
        truthy (field body "planId") = true → truthy (field body "userId") = true →
        gw.customerFind (field body "userId") 0 =
          .resolves { paymentMethods := some (first :: rest) } t0 →
        gw.subscriptionCreate
          (.obj [("paymentMethodToken", first.token), ("planId", field body "planId")]) 0 =
          .rejects e t →
        ∃ r, Live.postSubscribe gw body = some r ∧ r.response.status = 500 ∧
          r.response.bodyField "success" = .bool false ∧
          r.calls = [.customerFind (field body "userId"),
            .subscriptionCreate
              (.obj [("paymentMethodToken", first.token), ("planId", field body "planId")])]) := by
  refine ⟨⟨rfl, rfl, rfl⟩, ?_, ?_, ?_, ?_, ?_, ?_, ?_, ?_, ?_, ?_, ?_⟩
  · intro v h0 h1
    obtain ⟨run, hrun, hatt, hw⟩ := live_default_retry_once _ e v h0 h1
    have hlen : run.invocations.length = 2 := by
      have := congrArg List.length hatt
      simpa using this
    have hp : ∃ r, Live.postToken gw body = some r ∧ r.response.status = 200 ∧
        r.response.bodyField "success" = .bool true ∧
        r.response.bodyField "clientToken" = v ∧
        r.calls = [.clientTokenGenerate (Live.tokenOptions body),
          .clientTokenGenerate (Live.tokenOptions body)] := by
      simp only [Live.postToken, Live.tokenCall, hrun]
      exact ⟨_, rfl, rfl, rfl, rfl, map_const_of_length_two _ _ hlen⟩
    obtain ⟨r, hp⟩ := hp
    exact ⟨_, r, hrun, hatt, hw, hp⟩
  · intro e0 e1 h0 h1 h2
    obtain ⟨run, hrun, hatt, hw⟩ := live_default_exhausted _ e0 e1 e h0 h1 h2
    have hlen : run.invocations.length = 3 := by
      have := congrArg List.length hatt
      simpa using this
    have hp : ∃ r, Live.postToken gw body = some r ∧ r.response.status = 500 ∧
        r.response.bodyField "success" = .bool false ∧
        r.calls = [.clientTokenGenerate (Live.tokenOptions body),
          .clientTokenGenerate (Live.tokenOptions body),
          .clientTokenGenerate (Live.tokenOptions body)] := by
      simp only [Live.postToken, Live.tokenCall, hrun]
      exact ⟨_, rfl, rfl, rfl, map_const_of_length_three _ _ hlen⟩
    obtain ⟨r, hp⟩ := hp
    exact ⟨_, r, hrun, hatt, hw, hp⟩
  · intro plans h0 h1
    obtain ⟨run, hrun, hatt, hw⟩ := live_default_retry_once _ e plans h0 h1
    have hlen : run.invocations.length = 2 := by
      have := congrArg List.length hatt
      simpa using this
    have hp : ∃ r, Live.getPlans gw = some r ∧ r.response.status = 200 ∧
        r.response.bodyField "success" = .bool true ∧ r.calls = [.planAll, .planAll] := by
      simp only [Live.getPlans, Live.plansCall, hrun]
      exact ⟨_, rfl, rfl, rfl, map_const_of_length_two _ _ hlen⟩
    obtain ⟨r, hp⟩ := hp
    exact ⟨_, r, hrun, hatt, hw, hp⟩
  · intro e0 e1 h0 h1 h2
    obtain ⟨run, hrun, hatt, hw⟩ := live_default_exhausted _ e0 e1 e h0 h1 h2
    have hlen : run.invocations.length = 3 := by
      have := congrArg List.length hatt
      simpa using this
    have hp : ∃ r, Live.getPlans gw = some r ∧ r.response.status = 500 ∧
        r.response.bodyField "success" = .bool false ∧
        r.calls = [.planAll, .planAll, .planAll] := by
      simp only [Live.getPlans, Live.plansCall, hrun]
      exact ⟨_, rfl, rfl, rfl, map_const_of_length_three _ _ hlen⟩
    obtain ⟨r, hp⟩ := hp
    exact ⟨_, r, hrun, hatt, hw, hp⟩
  · intro number month year paymentMethod nonce hcard hmonth hyear h1 h2 h3 h4 h0 hok hnonce
    obtain ⟨run, hrun, hatt, hw⟩ := live_default_retry_once _ e _ h0 hok
    have hcalls : run.invocations.flatMap
        (fun v => Live.tokenizeCalls gw (Live.tokenizeParams body) (v.attempt - 1)) =
        Live.tokenizeCalls gw (Live.tokenizeParams body) 0 ++
          Live.tokenizeCalls gw (Live.tokenizeParams body) 1 := by
      rw [flatMap_of_attempts run.invocations
        (fun a => Live.tokenizeCalls gw (Live.tokenizeParams body) (a - 1)), hatt]
      simp
    have hp : ∃ r, Live.postTokenize env gw body = some r ∧ r.response.status = 200 ∧
        r.response.bodyField "success" = .bool true ∧
        r.response.bodyField "nonce" = .str nonce ∧
        r.calls = Live.tokenizeCalls gw (Live.tokenizeParams body) 0 ++
          Live.tokenizeCalls gw (Live.tokenizeParams body) 1 := by
      rw [hcard] at h1
      simp only [Live.postTokenize, hcard, hmonth, hyear, h1, h2, h3, h4, Live.tokenizeCall,
        hrun, hnonce, hcalls]
      exact ⟨_, rfl, rfl, rfl, rfl, rfl⟩
    obtain ⟨r, hp⟩ := hp
    exact ⟨_, r, hrun, hatt, hw, hp⟩
  · intro number month year e0 e1 hcard hmonth hyear h1 h2 h3 h4 h0 he1 he2
    obtain ⟨run, hrun, hatt, hw⟩ := live_default_exhausted _ e0 e1 e h0 he1 he2
    have hcalls : run.invocations.flatMap
        (fun v => Live.tokenizeCalls gw (Live.tokenizeParams body) (v.attempt - 1)) =
        Live.tokenizeCalls gw (Live.tokenizeParams body) 0 ++
          (Live.tokenizeCalls gw (Live.tokenizeParams body) 1 ++
            Live.tokenizeCalls gw (Live.tokenizeParams body) 2) := by
      rw [flatMap_of_attempts run.invocations
        (fun a => Live.tokenizeCalls gw (Live.tokenizeParams body) (a - 1)), hatt]
      simp
    have hp : ∃ r, Live.postTokenize env gw body = some r ∧ r.response.status = 500 ∧
        r.response.bodyField "success" = .bool false ∧
        r.calls = Live.tokenizeCalls gw (Live.tokenizeParams body) 0 ++
          (Live.tokenizeCalls gw (Live.tokenizeParams body) 1 ++
            Live.tokenizeCalls gw (Live.tokenizeParams body) 2) := by
      rw [hcard] at h1
      simp only [Live.postTokenize, hcard, hmonth, hyear, h1, h2, h3, h4, Live.tokenizeCall,
        hrun, hcalls]
      exact ⟨_, rfl, rfl, rfl, rfl⟩
    obtain ⟨r, hp⟩ := hp
    exact ⟨_, r, hrun, hatt, hw, hp⟩
  · intro id plan h1 h2 hs1 hs2 hg
    simp only [Live.putSubscriptionUpdate, h1, h2, hs1, hs2, hg]
    exact ⟨_, rfl, rfl, rfl, rfl⟩
  · intro id h1 hs hne hg
    have hb : (e.type == some "notFoundError") = false := by simpa using hne
    simp only [Live.postSubscriptionCancel, h1, hs, hg, hb]
    exact ⟨_, rfl, rfl, rfl, rfl⟩
  · intro id h1 _ hne hg
    have hb : (e.type == some "notFoundError") = false := by simpa using hne
    simp only [Live.getSubscriptionStatus, h1, hg, hb]
    exact ⟨_, rfl, rfl, rfl, rfl⟩
  · intro customer t0 amountText h1 h2 h3 hs hf hsale
    simp only [Live.postParkingPayment, h1, h2, h3, hf, Live.parkingSale, hs, hsale]
    exact ⟨_, rfl, rfl, rfl, rfl⟩
  · intro first rest t0 h1 h2 h3 hf hs
    simp only [Live.postSubscribe, h1, h2, h3, hf, Live.subscribePaymentMethod,
      Live.subscribeCreate, hs]
    exact ⟨_, rfl, rfl, rfl, rfl⟩

/-- C14 as stated fails: `POST /api/token` of `src/index.js` has one `catch`
block for every error.  When `gateway.clientToken.generate` throws an error
of type `notFoundError` on each attempt, the response has status 500, not
404. -/
theorem token_not_found_error_is_server_error :
    (Live.postToken
        { Gateway.silent with
          clientTokenGenerate := fun _ _ => .rejects ⟨"Not Found", some "notFoundError"⟩ 120 }
        []).map
      (fun r => (r.response.status, r.response.bodyField "success",
        r.response.bodyField "message")) =
      some (500, JsValue.bool false, JsValue.str "Not Found") := by
  rfl

/-- C14, amended: in `src/index.js`, when `gateway.subscription.cancel` throws
an error, `POST /api/subscription/cancel` answers with status 404 if the type
of the error is `notFoundError` and with status 500 otherwise; when
`gateway.subscription.update` throws an error of another type than
`notFoundError`, `PUT /api/subscription/update` answers with status 500; when
`gateway.clientToken.generate`, `gateway.plan.all` or the operation of
`POST /api/tokenize` fails on each of the three attempts, or
`gateway.subscription.create` or `gateway.transaction.sale` throws, whatever
the type of the error, the handler answers with status 500; all these
responses have `success: false`, and those with status 500 carry the message
of the error.  The gateway call of cancel, update and parking-payment is
reached only by a request whose identifiers and amount have a string form. -/
theorem handler_error_mapping (env : Env) (gw : Gateway) (body : List (String × JsValue))
    (e : JsError) (t : Nat) :
    (∀ id, truthy (field body "subscriptionId") = true →
        toStr (field body "subscriptionId") = some id →
        gw.subscriptionCancel (field body "subscriptionId") 0 = .rejects e t →
        ∃ r, Live.postSubscriptionCancel gw body = some r ∧
          r.response.bodyField "success" = .bool false ∧
          r.calls = [.subscriptionCancel (field body "subscriptionId")] ∧
          (e.type = some "notFoundError" → r.response.status = 404) ∧
          (e.type ≠ some "notFoundError" →
            r.response.status = 500 ∧ r.response.bodyField "message" = .str e.message)) ∧
    (∀ id plan, truthy (field body "subscriptionId") = true →
        truthy (field body "newPlanId") = true →
        toStr (field body "subscriptionId") = some id →
        toStr (field body "newPlanId") = some plan →
        e.type ≠ some "notFoundError" →
        gw.subscriptionUpdate (field body "subscriptionId")
          (.obj [("planId", field body "newPlanId")]) 0 = .rejects e t →
        ∃ r, Live.putSubscriptionUpdate gw body = some r ∧ r.response.status = 500 ∧
          r.response.bodyField "success" = .bool false ∧
          r.response.bodyField "message" = .str e.message) ∧
    (∀ e0 e1, raceResult "Request timed out"
          (gw.clientTokenGenerate (Live.tokenOptions body) 0) = .error e0 →
        raceResult "Request timed out"
          (gw.clientTokenGenerate (Live.tokenOptions body) 1) = .error e1 →
        raceResult "Request timed out"
          (gw.clientTokenGenerate (Live.tokenOptions body) 2) = .error e →
        ∃ r, Live.postToken gw body = some r ∧ r.response.status = 500 ∧
          r.response.bodyField "success" = .bool false ∧
          r.response.bodyField "message" = .str e.message) ∧
    (∀ e0 e1, raceResult "Request timed out" (gw.planAll 0) = .error e0 →
        raceResult "Request timed out" (gw.planAll 1) = .error e1 →
        raceResult "Request timed out" (gw.planAll 2) = .error e →
        ∃ r, Live.getPlans gw = some r ∧ r.response.status = 500 ∧
          r.response.bodyField "success" = .bool false ∧
          r.response.bodyField "message" = .str e.message) ∧
    (∀ number month year e0 e1, field body "cardNumber" = .str number →
        toStr (field body "expirationMonth") = some month →
        toStr (field body "expirationYear") = some year →
        truthy (field body "cardNumber") = true → truthy (field body "expirationMonth") = true →
        truthy (field body "expirationYear") = true → truthy (field body "cvv") = true →
        raceResult "Request timed out"
          (Live.tokenizeOperation gw (Live.tokenizeParams body) 0) = .error e0 →
        raceResult "Request timed out"
          (Live.tokenizeOperation gw (Live.tokenizeParams body) 1) = .error e1 →
        raceResult "Request timed out"
          (Live.tokenizeOperation gw (Live.tokenizeParams body) 2) = .error e →
        ∃ r, Live.postTokenize env gw body = some r ∧ r.response.status = 500 ∧
          r.response.bodyField "success" = .bool false ∧
          r.response.bodyField "message" = .str e.message) ∧
    (∀ first rest t0, truthy (field body "paymentMethodNonce") = true →
        truthy (field body "planId") = true → truthy (field body "userId") = true →
        gw.customerFind (field body "userId") 0 =
          .resolves { paymentMethods := some (first :: rest) } t0 →
        gw.subscriptionCreate
          (.obj [("paymentMethodToken", first.token), ("planId", field body "planId")]) 0 =
          .rejects e t →
        ∃ r, Live.postSubscribe gw body = some r ∧ r.response.status = 500 ∧
          r.response.bodyField "success" = .bool false ∧
          r.response.bodyField "message" = .str e.message) ∧
    (∀ customer t0 amountText, truthy (field body "nonce") = true →
        truthy (field body "amount") = true → truthy (field body "userId") = true →
        toStr (field body "amount") = some amountText →
        gw.customerFind (field body "userId") 0 = .resolves customer t0 →
        gw.transactionSale
          (Live.saleParams (field body "nonce") amountText (field body "userId")) 0 =
          .rejects e t →
        ∃ r, Live.postParkingPayment gw body = some r ∧ r.response.status = 500 ∧
          r.response.bodyField "success" = .bool false ∧
          r.response.bodyField "message" = .str e.message) := by
  refine ⟨?_, ?_, ?_, ?_, ?_, ?_, ?_⟩
  · intro id h1 hs hg
    by_cases hb : (e.type == some "notFoundError") = true
    · have ht : e.type = some "notFoundError" := by simpa using hb
      simp only [Live.postSubscriptionCancel, h1, hs, hg, hb]
      exact ⟨_, rfl, rfl, rfl, fun _ => rfl, fun hne => absurd ht hne⟩
    · have ht : e.type ≠ some "notFoundError" := by simpa using hb
      have hb2 : (e.type == some "notFoundError") = false := by simpa using hb
      simp only [Live.postSubscriptionCancel, h1, hs, hg, hb2]
      exact ⟨_, rfl, rfl, rfl, fun h => absurd h ht, fun _ => ⟨rfl, rfl⟩⟩
  · intro id plan h1 h2 hs1 hs2 _ hg
    simp only [Live.putSubscriptionUpdate, h1, h2, hs1, hs2, hg]
    exact ⟨_, rfl, rfl, rfl, rfl⟩
  · intro e0 e1 h0 h1 h2
    obtain ⟨run, hrun, _⟩ := live_default_exhausted _ e0 e1 e h0 h1 h2
    simp only [Live.postToken, Live.tokenCall, hrun]
    exact ⟨_, rfl, rfl, rfl, rfl⟩
  · intro e0 e1 h0 h1 h2
    obtain ⟨run, hrun, _⟩ := live_default_exhausted _ e0 e1 e h0 h1 h2
    simp only [Live.getPlans, Live.plansCall, hrun]
    exact ⟨_, rfl, rfl, rfl, rfl⟩
  · intro number month year e0 e1 hcard hmonth hyear h1 h2 h3 h4 h0 he1 he2
    obtain ⟨run, hrun, _⟩ := live_default_exhausted _ e0 e1 e h0 he1 he2
    rw [hcard] at h1
    simp only [Live.postTokenize, hcard, hmonth, hyear, h1, h2, h3, h4, Live.tokenizeCall, hrun]
    exact ⟨_, rfl, rfl, rfl, rfl⟩
  · intro first rest t0 h1 h2 h3 hf hs
    simp only [Live.postSubscribe, h1, h2, h3, hf, Live.subscribePaymentMethod,
      Live.subscribeCreate, hs]
    exact ⟨_, rfl, rfl, rfl, rfl⟩
  · intro customer t0 amountText h1 h2 h3 hs hf hsale
    simp only [Live.postParkingPayment, h1, h2, h3, hf, Live.parkingSale, hs, hsale]
    exact ⟨_, rfl, rfl, rfl, rfl⟩

/-! ## The envelope of the handlers' responses -/

theorem envelope_success (rest : List (String × JsValue)) :
    Envelope { status := 200, body := .obj (("success", .bool true) :: rest) } :=
  ⟨true, rfl, ⟨fun _ => rfl, fun _ => rfl⟩, fun h => by cases h⟩

theorem envelope_failure (status : Nat) (s : String) (rest : List (String × JsValue))
    (h : status ≠ 200) :
    Envelope
      { status := status, body := .obj (("success", .bool false) :: ("error", .str s) :: rest) } :=
  ⟨false, rfl, ⟨fun hb => (by cases hb), fun hs => absurd hs h⟩, fun _ => ⟨s, rfl⟩⟩

theorem envelope_serverError (label : String) (e : JsError) (calls : List GatewayCall) :
    Envelope (serverError label e calls).response :=
  envelope_failure 500 label _ (by decide)

theorem orElse_str (m d : String) : ∃ s, orElse (.str m) (.str d) = .str s := by
  unfold orElse
  split
  · exact ⟨m, rfl⟩
  · exact ⟨d, rfl⟩

theorem subscribeCreate_envelope (gw : Gateway) (planId token : JsValue)
    (calls : List GatewayCall) (r : Handled)
    (h : Live.subscribeCreate gw planId token calls = some r) : Envelope r.response := by
  simp only [Live.subscribeCreate] at h
  split at h
  · cases h
  · cases h; exact envelope_serverError _ _ _
  · cases h; exact envelope_failure 400 _ _ (by decide)
  · cases h; exact envelope_success _

theorem subscribePaymentMethod_envelope (gw : Gateway) (nonce planId userId : JsValue)
    (customer : Customer) (calls : List GatewayCall) (r : Handled)
    (h : Live.subscribePaymentMethod gw nonce planId userId customer calls = some r) :
    Envelope r.response := by
  simp only [Live.subscribePaymentMethod] at h
  split at h
  · exact subscribeCreate_envelope _ _ _ _ _ h
  · split at h
    · cases h
    · cases h; exact envelope_serverError _ _ _
    · cases h; exact envelope_serverError _ _ _
    · exact subscribeCreate_envelope _ _ _ _ _ h

theorem postSubscribe_envelope (gw : Gateway) (body : List (String × JsValue)) (r : Handled)
    (h : Live.postSubscribe gw body = some r) : Envelope r.response := by
  simp only [Live.postSubscribe] at h
  split at h
  · cases h; exact envelope_failure 400 _ _ (by decide)
  · split at h
    · cases h
    · exact subscribePaymentMethod_envelope _ _ _ _ _ _ _ h
    · split at h
      · split at h
        · cases h
        · cases h; exact envelope_serverError _ _ _
        · cases h; exact envelope_serverError _ _ _
        · exact subscribePaymentMethod_envelope _ _ _ _ _ _ _ h
      · cases h; exact envelope_serverError _ _ _

theorem getSubscriptionStatus_envelope (env : Env) (gw : Gateway)
    (query : List (String × JsValue)) (r : Handled)
    (h : Live.getSubscriptionStatus env gw query = some r) : Envelope r.response := by
  simp only [Live.getSubscriptionStatus] at h
  split at h
  · cases h; exact envelope_failure 400 _ _ (by decide)
  · split at h
    · cases h
    · split at h
      · cases h; exact envelope_serverError _ _ _
      · split at h
        · cases h; exact envelope_success _
        · cases h; exact envelope_success _
    · split at h
      · cases h; exact envelope_success _
      · cases h; exact envelope_serverError _ _ _

theorem postToken_envelope (gw : Gateway) (body : List (String × JsValue)) (r : Handled)
    (h : Live.postToken gw body = some r) : Envelope r.response := by
  simp only [Live.postToken] at h
  split at h
  · cases h
  · split at h
    · cases h; exact envelope_success _
    · cases h; exact envelope_serverError _ _ _
    · cases h

theorem getPlans_envelope (gw : Gateway) (r : Handled) (h : Live.getPlans gw = some r) :
    Envelope r.response := by
  simp only [Live.getPlans] at h
  split at h
  · cases h
  · split at h
    · cases h; exact envelope_success _
    · cases h; exact envelope_serverError _ _ _
    · cases h

theorem postTokenize_envelope (env : Env) (gw : Gateway) (body : List (String × JsValue))
    (r : Handled) (h : Live.postTokenize env gw body = some r) : Envelope r.response := by
  simp only [Live.postTokenize] at h
  split at h
  · split at h
    · split at h
      · cases h; exact envelope_failure 400 _ _ (by decide)
      · split at h
        · cases h
        · split at h
          · cases h
            rename_i message _
            obtain ⟨s, hs⟩ := orElse_str message "Error tokenizando tarjeta"
            rw [hs]
            exact envelope_failure 400 _ _ (by decide)
          · split at h
            · cases h; exact envelope_success _
            · cases h; exact envelope_serverError _ _ _
          · cases h; exact envelope_serverError _ _ _
          · cases h
    · cases h; exact envelope_serverError _ _ _
  · cases h; exact envelope_serverError _ _ _

theorem putSubscriptionUpdate_envelope (gw : Gateway) (body : List (String × JsValue))
    (r : Handled) (h : Live.putSubscriptionUpdate gw body = some r) : Envelope r.response := by
  simp only [Live.putSubscriptionUpdate] at h
  split at h
  · cases h; exact envelope_failure 400 _ _ (by decide)
  · split at h
    · split at h
      · cases h
      · cases h; exact envelope_serverError _ _ _
      · cases h; exact envelope_failure 400 _ _ (by decide)
      · cases h; exact envelope_success _
    · cases h; exact envelope_serverError _ _ _

theorem postSubscriptionCancel_envelope (gw : Gateway) (body : List (String × JsValue))
    (r : Handled) (h : Live.postSubscriptionCancel gw body = some r) : Envelope r.response := by
  simp only [Live.postSubscriptionCancel] at h
  split at h
  · cases h; exact envelope_failure 400 _ _ (by decide)
  · split at h
    · split at h
      · cases h
      · split at h
        · cases h; exact envelope_failure 404 _ _ (by decide)
        · cases h; exact envelope_serverError _ _ _
      · cases h; exact envelope_failure 400 _ _ (by decide)
      · cases h; exact envelope_success _
    · cases h; exact envelope_serverError _ _ _

theorem parkingSale_envelope (gw : Gateway) (nonce amount customerId : JsValue)
    (calls : List GatewayCall) (r : Handled)
    (h : Live.parkingSale gw nonce amount customerId calls = some r) : Envelope r.response := by
  simp only [Live.parkingSale] at h
  split at h
  · cases h; exact envelope_serverError _ _ _
  · split at h
    · cases h
    · cases h; exact envelope_serverError _ _ _
    · cases h; exact envelope_failure 400 _ _ (by decide)
    · cases h; exact envelope_success _

theorem postParkingPayment_envelope (gw : Gateway) (body : List (String × JsValue))
    (r : Handled) (h : Live.postParkingPayment gw body = some r) : Envelope r.response := by
  simp only [Live.postParkingPayment] at h
  split at h
  · cases h; exact envelope_failure 400 _ _ (by decide)
  · split at h
    · cases h
    · exact parkingSale_envelope _ _ _ _ _ _ h
    · split at h
      · split at h
        · cases h
        · cases h; exact envelope_serverError _ _ _
        · cases h; exact envelope_serverError _ _ _
        · exact parkingSale_envelope _ _ _ _ _ _ h
      · cases h; exact envelope_serverError _ _ _

/-- C15 as stated fails: the bodies of `GET /` and `GET /api/health` of
`src/index.js` are status objects (`status: 'online'`, `status: 'healthy'`)
without a field `success`; the health route also serves the path in another
case and with a trailing slash. -/
theorem health_responses_have_no_success_field :
    (Live.app Env.sample Gateway.silent
        { method := "GET", path := "/", body := [], query := [] }).map
      (fun r => (r.response.status, r.response.bodyField "success",
        r.response.bodyField "status")) =
      some (200, JsValue.undefined, JsValue.str "online") ∧
    (Live.app Env.sample Gateway.silent
        { method := "GET", path := "/api/health", body := [], query := [] }).map
      (fun r => (r.response.status, r.response.bodyField "success",
        r.response.bodyField "status")) =
      some (200, JsValue.undefined, JsValue.str "healthy") ∧
    (Live.app Env.sample Gateway.silent
        { method := "GET", path := "/API/Health/", body := [], query := [] }).map
      (fun r => (r.response.status, r.response.bodyField "success",
        r.response.bodyField "status")) =
      some (200, JsValue.undefined, JsValue.str "healthy") := by
  refine ⟨rfl, rfl, rfl⟩

/-- Every answer of a handler other than those of `GET /` and
`GET /api/health` follows the envelope convention. -/
theorem dispatch_envelope (env : Env) (gw : Gateway) (req : Request) (d : Handled)
    (h : Live.dispatch env gw req = some d) (hpre : Live.route req ≠ .preflight)
    (hroot : Live.route req ≠ .root) (hhealth : Live.route req ≠ .health) :
    Envelope d.response := by
  unfold Live.dispatch at h
  cases hr : Live.route req with
  | preflight => exact absurd hr hpre
  | root => exact absurd hr hroot
  | health => exact absurd hr hhealth
  | config =>
    rw [hr] at h
    have h2 : some (Live.getConfig env) = some d := h
    cases h2
    exact envelope_success _
  | token => rw [hr] at h; exact postToken_envelope _ _ _ h
  | tokenize => rw [hr] at h; exact postTokenize_envelope _ _ _ _ h
  | plans => rw [hr] at h; exact getPlans_envelope _ _ h
  | subscribe => rw [hr] at h; exact postSubscribe_envelope _ _ _ h
  | subscriptionStatus => rw [hr] at h; exact getSubscriptionStatus_envelope _ _ _ _ h
  | subscriptionUpdate => rw [hr] at h; exact putSubscriptionUpdate_envelope _ _ _ h
  | subscriptionCancel => rw [hr] at h; exact postSubscriptionCancel_envelope _ _ _ h
  | parkingPayment => rw [hr] at h; exact postParkingPayment_envelope _ _ _ h
  | unmatched =>
    rw [hr] at h
    have h2 : some Live.notFound = some d := h
    cases h2
    exact envelope_failure 404 _ _ (by decide)

/-- A conditional whose branches both differ from a route differs from it. -/
theorem ite_ne_route {c : Prop} [Decidable c] {a b x : Live.Route} (ha : a ≠ x) (hb : b ≠ x) :
    (if c then a else b) ≠ x := by
  split <;> assumption

/-- Only an `OPTIONS` request gets the preflight answer. -/
theorem route_preflight (req : Request) (h : Live.route req = .preflight) :
    req.method = "OPTIONS" := by
  by_contra hne
  have hb : (req.method == "OPTIONS") = false := by simpa using hne
  unfold Live.route at h
  rw [hb] at h
  simp only [Bool.false_eq_true, if_false] at h
  exact absurd h
    (ite_ne_route (by decide) (ite_ne_route (by decide) (ite_ne_route (by decide)
      (ite_ne_route (by decide) (ite_ne_route (by decide) (ite_ne_route (by decide)
        (ite_ne_route (by decide) (ite_ne_route (by decide) (ite_ne_route (by decide)
          (ite_ne_route (by decide) (ite_ne_route (by decide) (by decide))))))))))))

/-- C15, amended: every JSON response body `src/index.js` sends for a request
that is not served by the routes `GET /` and `GET /api/health` (the handler of
unmatched routes included) carries a boolean field `success`; it is `true`
exactly on the responses with status 200, and every response with
`success: false` carries a string field `error`.  The answers of `GET /` and
`GET /api/health` have status 200 and a body without a field `success`; the
answer to a `HEAD` request and the preflight answer to an `OPTIONS` request
have no body.  A request is served by a route as express matches it: the path
without regard to case and with an optional trailing slash. -/
theorem response_envelope (env : Env) (gw : Gateway) (req : Request) (r : Handled)
    (h : Live.app env gw req = some r) :
    (req.method ≠ "HEAD" → Live.route req ≠ .preflight → Live.route req ≠ .root →
        Live.route req ≠ .health → Envelope r.response) ∧
    (req.method ≠ "HEAD" → Live.route req = .root ∨ Live.route req = .health →
        r.response.status = 200 ∧ r.response.bodyField "success" = .undefined) ∧
    (req.method = "HEAD" ∨ Live.route req = .preflight → r.response.body = .undefined) := by
  unfold Live.app at h
  cases hd : Live.dispatch env gw req with
  | none => rw [hd] at h; cases h
  | some d =>
    rw [hd] at h
    have hr : Live.sent req d = r := by
      have h2 : some (Live.sent req d) = some r := h
      cases h2
      rfl
    refine ⟨?_, ?_, ?_⟩
    · intro hm hpre hroot hhealth
      have hs : Live.sent req d = d := by simp [Live.sent, hm]
      rw [← hr, hs]
      exact dispatch_envelope env gw req d hd hpre hroot hhealth
    · intro hm hroute
      have hs : Live.sent req d = d := by simp [Live.sent, hm]
      rw [← hr, hs]
      unfold Live.dispatch at hd
      rcases hroute with hroute | hroute
      · rw [hroute] at hd
        have h2 : some (Live.getRoot env) = some d := hd
        cases h2
        exact ⟨rfl, rfl⟩
      · rw [hroute] at hd
        have h2 : some (Live.getHealth env) = some d := hd
        cases h2
        exact ⟨rfl, rfl⟩
    · intro hcase
      rcases hcase with hm | hroute
      · rw [← hr]
        simp [Live.sent, hm]
      · have hne : req.method = "OPTIONS" := route_preflight req hroute
        have hs : Live.sent req d = d := by
          unfold Live.sent
          rw [hne]
          rfl
        rw [← hr, hs]
        unfold Live.dispatch at hd
        rw [hroute] at hd
        have h2 : some ({ response := { status := 204, body := .undefined }, calls := [] } :
            Handled) = some d := hd
        cases h2
        rfl

/-- C15, amended, at concrete inputs: a parking payment whose sale the gateway
declines follows the envelope; `GET /API/Health/` is answered by the health
route, without a field `success`; the answer to `HEAD /api/config` has no
body. -/
theorem response_envelope_witness :
    (Live.app Env.sample
        { Gateway.silent with
          customerFind := fun _ _ => .resolves { paymentMethods := some [] } 50
          transactionSale := fun _ _ => .resolves (.failure "Processor Declined") 80 }
        { method := "POST", path := "/api/parking-payment", body := parkingTestBody, query := [] } =
      some { response :=
               { status := 400
                 body := .obj [("success", .bool false), ("error", .str "Pago rechazado"),
                   ("message", .str "Processor Declined")] }
             calls := [.customerFind (.str "test-user-789"),
               .transactionSale (.obj [("amount", .str "5.5"),
                 ("paymentMethodNonce", .str "fake-valid-nonce"),
                 ("customerId", .str "test-user-789"),
                 ("options", .obj [("submitForSettlement", .bool true)])])] } ∧
      Envelope
        { status := 400
          body := .obj [("success", .bool false), ("error", .str "Pago rechazado"),
            ("message", .str "Processor Declined")] }) ∧
    (Live.app Env.sample Gateway.silent
        { method := "GET", path := "/API/Health/", body := [], query := [] } =
      some (Live.getHealth Env.sample) ∧
      (Live.getHealth Env.sample).response.status = 200 ∧
      (Live.getHealth Env.sample).response.bodyField "success" = .undefined) ∧
    (Live.app Env.sample Gateway.silent
        { method := "HEAD", path := "/api/config", body := [], query := [] } =
      some { response := { status := 200, body := .undefined }, calls := [] } ∧
      ({ status := 200, body := .undefined } : Response).body = .undefined) :=
  ⟨⟨rfl,
    (response_envelope Env.sample
      { Gateway.silent with
        customerFind := fun _ _ => .resolves { paymentMethods := some [] } 50
        transactionSale := fun _ _ => .resolves (.failure "Processor Declined") 80 }
      { method := "POST", path := "/api/parking-payment", body := parkingTestBody, query := [] }
      _ rfl).1 (by decide) (by decide) (by decide) (by decide)⟩,
    ⟨rfl,
      (response_envelope Env.sample Gateway.silent
        { method := "GET", path := "/API/Health/", body := [], query := [] }
        _ rfl).2.1 (by decide) (Or.inr (by decide))⟩,
    ⟨rfl,
      (response_envelope Env.sample Gateway.silent
        { method := "HEAD", path := "/api/config", body := [], query := [] }
        _ rfl).2.2 (Or.inl rfl)⟩⟩

/-- C20 as stated fails: with `nonce`, `amount` and `userId` present, the sale
is not submitted when the customer lookup that precedes it fails (with the
request of the test script and a gateway whose `customer.find` throws an
error of type `unexpectedError`, the handler makes that one call and answers
with status 500), nor when `amount` has no string form (an object with an own
property `toString`: `amount.toString()` throws after the customer lookup and
the answer has status 500); and a field that is present but falsy (`amount: 0`)
is answered with status 400 without any gateway call. -/
theorem parking_payment_without_sale :
    (Live.postParkingPayment
        { Gateway.silent with
          customerFind := fun _ _ => .rejects ⟨"Request timeout", some "unexpectedError"⟩ 120
          transactionSale := fun _ _ =>
            .resolves (.success ⟨.str "tx1", .str "5.50", .str "submitted_for_settlement"⟩) 80 }
        parkingTestBody).map
      (fun r => (r.response.status, r.response.bodyField "success", r.calls.length)) =
      some (500, JsValue.bool false, 1) ∧
    Live.postParkingPayment
        { Gateway.silent with
          customerFind := fun _ _ => .resolves { paymentMethods := some [] } 50
          transactionSale := fun _ _ =>
            .resolves (.success ⟨.str "tx1", .str "5.50", .str "submitted_for_settlement"⟩) 80 }
        [("nonce", .str "fake-valid-nonce"), ("amount", .obj [("toString", .num "1")]),
          ("userId", .str "test-user-789")] =
      some { response :=
               { status := 500
                 body := .obj [("success", .bool false), ("error", .str "Error procesando pago"),
                   ("message", .str "amount.toString is not a function")] }
             calls := [.customerFind (.str "test-user-789")] } ∧
    Live.postParkingPayment
        { Gateway.silent with
          customerFind := fun _ _ => .resolves { paymentMethods := some [] } 50
          transactionSale := fun _ _ =>
            .resolves (.success ⟨.str "tx1", .str "0.00", .str "submitted_for_settlement"⟩) 80 }
        [("nonce", .str "fake-valid-nonce"), ("amount", .num "0"),
          ("userId", .str "test-user-789")] =
      some { response :=
               { status := 400
                 body := .obj [("success", .bool false), ("error", .str "Faltan datos requeridos")] }
             calls := [] } := by
  refine ⟨rfl, rfl, rfl⟩

/-- C20, amended: for every `POST /api/parking-payment` request to
`src/index.js` whose `nonce`, `amount` and `userId` are all truthy, whose
`amount` has a string form (`amount.toString()` does not throw), and for which
the customer lookup succeeds, or fails with type `notFoundError` and the
customer creation that follows succeeds, the last gateway call is the sale
with `amount` converted to its string form, the nonce, `customerId = userId`
and `submitForSettlement`; if the gateway result has `success = true` the
response has status 200, `success: true` and `transaction` with the `id`,
`amount` and `status` of the gateway transaction, and if it has
`success = false` the response has status 400, `success: false` and the
gateway's message. -/
theorem parking_payment_outcome (gw : Gateway) (body : List (String × JsValue))
    (amountText : String)
    (hnonce : truthy (field body "nonce") = true) (hamount : truthy (field body "amount") = true)
    (huser : truthy (field body "userId") = true)
    (hstring : toStr (field body "amount") = some amountText)
    (hcustomer : (∃ c t, gw.customerFind (field body "userId") 0 = .resolves c t) ∨
      (∃ e t c t2, gw.customerFind (field body "userId") 0 = .rejects e t ∧
        e.type = some "notFoundError" ∧
        gw.customerCreate (.obj [("id", field body "userId")]) 0 = .resolves (.success c) t2)) :
    (∀ tx t, gw.transactionSale
          (.obj [("amount", .str amountText), ("paymentMethodNonce", field body "nonce"),
            ("customerId", field body "userId"),
            ("options", .obj [("submitForSettlement", .bool true)])]) 0 =
          .resolves (.success tx) t →
      ∃ before, Live.postParkingPayment gw body =
        some { response :=
                 { status := 200
                   body := .obj [("success", .bool true),
                     ("transaction", .obj [("id", tx.id), ("amount", tx.amount),
                       ("status", tx.status)]),
                     ("message", .str "Pago procesado exitosamente")] }
               calls := before ++
                 [.transactionSale (.obj [("amount", .str amountText),
                   ("paymentMethodNonce", field body "nonce"),
                   ("customerId", field body "userId"),
                   ("options", .obj [("submitForSettlement", .bool true)])])] }) ∧
    (∀ message t, gw.transactionSale
          (.obj [("amount", .str amountText), ("paymentMethodNonce", field body "nonce"),
            ("customerId", field body "userId"),
            ("options", .obj [("submitForSettlement", .bool true)])]) 0 =
          .resolves (.failure message) t →
      ∃ before, Live.postParkingPayment gw body =
        some { response :=
                 { status := 400
                   body := .obj [("success", .bool false), ("error", .str "Pago rechazado"),
                     ("message", .str message)] }
               calls := before ++
                 [.transactionSale (.obj [("amount", .str amountText),
                   ("paymentMethodNonce", field body "nonce"),
                   ("customerId", field body "userId"),
                   ("options", .obj [("submitForSettlement", .bool true)])])] }) := by
  constructor
  · intro tx t hs
    rcases hcustomer with ⟨c, t0, hf⟩ | ⟨e, t0, c, t2, hf, hty, hc⟩
    · exact ⟨_, by
        simp only [Live.postParkingPayment, hnonce, hamount, huser, hf, Live.parkingSale,
          hstring, Live.saleParams, hs]
        rfl⟩
    · have hb : (e.type == some "notFoundError") = true := by simp [hty]
      exact ⟨_, by
        simp only [Live.postParkingPayment, hnonce, hamount, huser, hf, hb, hc,
          Live.parkingSale, hstring, Live.saleParams, hs]
        rfl⟩
  · intro message t hs
    rcases hcustomer with ⟨c, t0, hf⟩ | ⟨e, t0, c, t2, hf, hty, hc⟩
    · exact ⟨_, by
        simp only [Live.postParkingPayment, hnonce, hamount, huser, hf, Live.parkingSale,
          hstring, Live.saleParams, hs]
        rfl⟩
    · have hb : (e.type == some "notFoundError") = true := by simp [hty]
      exact ⟨_, by
        simp only [Live.postParkingPayment, hnonce, hamount, huser, hf, hb, hc,
          Live.parkingSale, hstring, Live.saleParams, hs]
        rfl⟩

/-- C20, amended, at the request of the test script, with a gateway that
knows the customer and accepts the sale. -/
theorem parking_payment_outcome_witness :
    truthy (field parkingTestBody "nonce") = true ∧
    truthy (field parkingTestBody "amount") = true ∧
    truthy (field parkingTestBody "userId") = true ∧
    toStr (field parkingTestBody "amount") = some "5.5" ∧
    ∃ before, Live.postParkingPayment
        { Gateway.silent with
          customerFind := fun _ _ => .resolves { paymentMethods := some [] } 50
          transactionSale := fun _ _ =>
            .resolves (.success ⟨.str "tx1", .str "5.50", .str "submitted_for_settlement"⟩) 80 }
        parkingTestBody =
      some { response :=
               { status := 200
                 body := .obj [("success", .bool true),
                   ("transaction", .obj [("id", .str "tx1"), ("amount", .str "5.50"),
                     ("status", .str "submitted_for_settlement")]),
                   ("message", .str "Pago procesado exitosamente")] }
             calls := before ++
               [.transactionSale (.obj [("amount", .str "5.5"),
                 ("paymentMethodNonce", field parkingTestBody "nonce"),
                 ("customerId", field parkingTestBody "userId"),
                 ("options", .obj [("submitForSettlement", .bool true)])])] } :=
  ⟨rfl, rfl, rfl, rfl,
    (parking_payment_outcome
      { Gateway.silent with
        customerFind := fun _ _ => .resolves { paymentMethods := some [] } 50
        transactionSale := fun _ _ =>
          .resolves (.success ⟨.str "tx1", .str "5.50", .str "submitted_for_settlement"⟩) 80 }
      parkingTestBody "5.5" rfl rfl rfl rfl (Or.inl ⟨_, _, rfl⟩)).1
      ⟨.str "tx1", .str "5.50", .str "submitted_for_settlement"⟩ 80 rfl⟩

/-- C12 at a concrete input: requests with an empty body and an empty query. -/
theorem handlers_validate_before_gateway_witness :
    (∃ r, Live.postSubscribe Gateway.silent [] = some r ∧ r.response.status = 400 ∧
      r.response.bodyField "success" = .bool false ∧ r.calls = []) ∧
    (∃ r, Live.getSubscriptionStatus Env.sample Gateway.silent [] = some r ∧
      r.response.status = 400 ∧ r.response.bodyField "success" = .bool false ∧ r.calls = []) ∧
    (∃ r, Live.putSubscriptionUpdate Gateway.silent [] = some r ∧ r.response.status = 400 ∧
      r.response.bodyField "success" = .bool false ∧ r.calls = []) ∧
    (∃ r, Live.postSubscriptionCancel Gateway.silent [] = some r ∧ r.response.status = 400 ∧
      r.response.bodyField "success" = .bool false ∧ r.calls = []) ∧
    (∃ r, Live.postParkingPayment Gateway.silent [] = some r ∧ r.response.status = 400 ∧
      r.response.bodyField "success" = .bool false ∧ r.calls = []) :=
  ⟨(handlers_validate_before_gateway Env.sample Gateway.silent [] []).1 (Or.inl rfl),
    (handlers_validate_before_gateway Env.sample Gateway.silent [] []).2.1 rfl,
    (handlers_validate_before_gateway Env.sample Gateway.silent [] []).2.2.1 (Or.inl rfl),
    (handlers_validate_before_gateway Env.sample Gateway.silent [] []).2.2.2.1 rfl,
    (handlers_validate_before_gateway Env.sample Gateway.silent [] []).2.2.2.2 (Or.inl rfl)⟩

/-- C13, amended, at concrete inputs: a token request against a gateway whose
first `clientToken.generate` call fails with a timeout and whose second call
resolves (two calls, one wait of 1000 ms, status 200); a token request against
a gateway whose `clientToken.generate` always fails (three calls, waits of
1000 ms and 2000 ms, status 500); and a cancel request against a gateway whose
`subscription.cancel` call fails with a timeout (one call, status 500). -/
theorem wrapper_use_by_handlers_witness :
    (∃ settled r, Live.tokenCall
        { Gateway.silent with
          clientTokenGenerate := fun _ i =>
            if i = 0 then .rejects ⟨"Request timeout", some "unexpectedError"⟩ 120
            else .resolves (.str "token-abc") 80 } (Live.tokenOptions []) = some settled ∧
      settled.run.invocations.map (fun i => i.attempt) = [1, 2] ∧
      settled.run.waits = [1000] ∧
      Live.postToken
        { Gateway.silent with
          clientTokenGenerate := fun _ i =>
            if i = 0 then .rejects ⟨"Request timeout", some "unexpectedError"⟩ 120
            else .resolves (.str "token-abc") 80 } [] = some r ∧
      r.response.status = 200 ∧ r.response.bodyField "success" = .bool true ∧
      r.response.bodyField "clientToken" = .str "token-abc" ∧
      r.calls = [.clientTokenGenerate (Live.tokenOptions []),
        .clientTokenGenerate (Live.tokenOptions [])]) ∧
    (∃ settled r, Live.tokenCall
        { Gateway.silent with
          clientTokenGenerate := fun _ _ =>
            .rejects ⟨"Request timeout", some "unexpectedError"⟩ 120 }
        (Live.tokenOptions []) = some settled ∧
      settled.run.invocations.map (fun i => i.attempt) = [1, 2, 3] ∧
      settled.run.waits = [1000, 2000] ∧
      Live.postToken
        { Gateway.silent with
          clientTokenGenerate := fun _ _ =>
            .rejects ⟨"Request timeout", some "unexpectedError"⟩ 120 } [] = some r ∧
      r.response.status = 500 ∧ r.response.bodyField "success" = .bool false ∧
      r.calls = [.clientTokenGenerate (Live.tokenOptions []),
        .clientTokenGenerate (Live.tokenOptions []),
        .clientTokenGenerate (Live.tokenOptions [])]) ∧
    (∃ r, Live.postSubscriptionCancel
        { Gateway.silent with
          subscriptionCancel := fun _ _ =>
            .rejects ⟨"Request timeout", some "unexpectedError"⟩ 120 }
        [("subscriptionId", .str "sub-1")] = some r ∧
      r.response.status = 500 ∧ r.response.bodyField "success" = .bool false ∧
      r.calls = [.subscriptionCancel (field [("subscriptionId", .str "sub-1")] "subscriptionId")]) :=
  ⟨(wrapper_use_by_handlers Env.sample
      { Gateway.silent with
        clientTokenGenerate := fun _ i =>
          if i = 0 then .rejects ⟨"Request timeout", some "unexpectedError"⟩ 120
          else .resolves (.str "token-abc") 80 } [] []
      ⟨"Request timeout", some "unexpectedError"⟩ 120).2.1 (.str "token-abc") rfl rfl,
    (wrapper_use_by_handlers Env.sample
      { Gateway.silent with
        clientTokenGenerate := fun _ _ =>
          .rejects ⟨"Request timeout", some "unexpectedError"⟩ 120 } [] []
      ⟨"Request timeout", some "unexpectedError"⟩ 120).2.2.1
      ⟨"Request timeout", some "unexpectedError"⟩ ⟨"Request timeout", some "unexpectedError"⟩
      rfl rfl rfl,
    (wrapper_use_by_handlers Env.sample
      { Gateway.silent with
        subscriptionCancel := fun _ _ =>
          .rejects ⟨"Request timeout", some "unexpectedError"⟩ 120 }
      [("subscriptionId", .str "sub-1")] []
      ⟨"Request timeout", some "unexpectedError"⟩ 120).2.2.2.2.2.2.2.2.1 "sub-1" rfl rfl
      (by decide) rfl⟩

/-- C14, amended, at concrete inputs: cancel requests against a gateway that
does not know the subscription (status 404), and against one that fails with
a timeout (status 500). -/
theorem handler_error_mapping_witness :
    (∃ r, Live.postSubscriptionCancel
        { Gateway.silent with
          subscriptionCancel := fun _ _ => .rejects ⟨"Not Found", some "notFoundError"⟩ 120 }
        [("subscriptionId", .str "sub-1")] = some r ∧
      r.response.bodyField "success" = .bool false ∧ r.response.status = 404) ∧
    (∃ r, Live.postSubscriptionCancel
        { Gateway.silent with
          subscriptionCancel := fun _ _ =>
            .rejects ⟨"Request timeout", some "unexpectedError"⟩ 120 }
        [("subscriptionId", .str "sub-1")] = some r ∧
      r.response.bodyField "success" = .bool false ∧ r.response.status = 500 ∧
      r.response.bodyField "message" = .str "Request timeout") :=
  ⟨(fun ⟨r, h, hs, _, h404, _⟩ => ⟨r, h, hs, h404 rfl⟩)
      ((handler_error_mapping Env.sample
        { Gateway.silent with
          subscriptionCancel := fun _ _ => .rejects ⟨"Not Found", some "notFoundError"⟩ 120 }
        [("subscriptionId", .str "sub-1")] ⟨"Not Found", some "notFoundError"⟩ 120).1
        "sub-1" rfl rfl rfl),
    (fun ⟨r, h, hs, _, _, h500⟩ => ⟨r, h, hs, (h500 (by decide)).1, (h500 (by decide)).2⟩)
      ((handler_error_mapping Env.sample
        { Gateway.silent with
          subscriptionCancel := fun _ _ =>
            .rejects ⟨"Request timeout", some "unexpectedError"⟩ 120 }
        [("subscriptionId", .str "sub-1")] ⟨"Request timeout", some "unexpectedError"⟩ 120).1
        "sub-1" rfl rfl rfl)⟩

/-! ## The two versions side by side -/

/-- Two instances of the common loop agree when, on every attempt inside the
loop bound, the races give the same result and the retry tests agree on the
error of a failed attempt. -/
theorem retryLoop_agree {α : Type} (tm tm2 : String) (c c2 : JsError → Bool)
    (fn : Nat → Settle α) (m d : Int)
    (h : ∀ j : Nat, (j : Int) < m →
      raceResult tm (fn j) = raceResult tm2 (fn j) ∧
        ∀ e, raceResult tm (fn j) = .error e → c e = c2 e) :
    ∀ (fuel i : Nat) (s : Run) (le : Option JsError),
      retryLoop tm c fn m d fuel i s le = retryLoop tm2 c2 fn m d fuel i s le := by
  intro fuel
  induction fuel with
  | zero => intro i s le; rfl
  | succ fuel ih =>
    intro i s le
    simp only [retryLoop]
    by_cases hi : (i : Int) < m
    · obtain ⟨hrace, hc⟩ := h i hi
      simp only [if_pos hi, ← hrace]
      cases hr : raceResult tm (fn i) with
      | ok v => rfl
      | error e =>
        simp only [← hc e hr, ih]
    · simp only [if_neg hi]

/-- An operation that settles within the limit gives the same race result
whatever the message of the timeout error is. -/
theorem raceResult_in_time {α : Type} (tm tm2 : String) (o : Settle α)
    (h : timesOut o = false) : raceResult tm o = raceResult tm2 o := by
  cases o with
  | resolves v t =>
    have ht : t < attemptTimeoutMs := by simpa [timesOut] using h
    simp only [raceResult, if_pos ht]
  | rejects e t =>
    have ht : t < attemptTimeoutMs := by simpa [timesOut] using h
    simp only [raceResult, if_pos ht]
  | never => simp [timesOut] at h

/-- The error of a failed attempt whose operation settled within the limit is
the error the operation rejected with. -/
theorem raceResult_error_in_time {α : Type} (tm : String) (o : Settle α) (e : JsError)
    (h : timesOut o = false) (he : raceResult tm o = .error e) : ∃ t, o = .rejects e t := by
  cases o with
  | resolves v t =>
    have ht : t < attemptTimeoutMs := by simpa [timesOut] using h
    simp [raceResult, if_pos ht] at he
  | rejects e2 t =>
    have ht : t < attemptTimeoutMs := by simpa [timesOut] using h
    simp only [raceResult, if_pos ht, Except.error.injEq] at he
    exact ⟨t, by rw [he]⟩
  | never => simp [timesOut] at h

/-- The test of `src/index-backup.js` in words: the message contains `timeout`
or `timed out`, or the message is non-empty and the type is
`unexpectedError`. -/
theorem backup_isTimeout_of_words (e : JsError)
    (h : includes e.message "timeout" = true ∨ includes e.message "timed out" = true ∨
      (e.message ≠ "" ∧ e.type = some "unexpectedError")) :
    Backup.isTimeout e = true := by
  have hne : e.message ≠ "" := by
    intro hm
    rw [hm] at h
    rcases h with h | h | ⟨h, _⟩
    · exact absurd h (by decide)
    · exact absurd h (by decide)
    · exact h rfl
  rw [backup_isTimeout_iff]
  refine ⟨hne, ?_⟩
  rcases h with h | h | ⟨_, h⟩
  · simp [specRetryable, h]
  · simp [specRetryable, h]
  · simp [specRetryable, h]

/-- C22: for every `maxRetries`, every `initialDelayMs` and every operation
whose attempts inside the loop bound all settle before the timeout and fail,
when they fail, with an error that `src/index-backup.js` classifies as
retryable (message containing `timeout` or `timed out`, or non-empty message
with type `unexpectedError`), `retryBraintreeCall` of `src/index.js` and
`retryBraintreeCall` of `src/index-backup.js` give the same result: the same
outcome and the same run, hence the same invocations and the same waits. -/
theorem versions_agree_on_transient_failures {α : Type} (fn : Nat → Settle α) (m d : Int)
    (h : ∀ j : Nat, (j : Int) < m →
      timesOut (fn j) = false ∧
        ∀ e t, fn j = .rejects e t →
          (includes e.message "timeout" = true ∨ includes e.message "timed out" = true ∨
            (e.message ≠ "" ∧ e.type = some "unexpectedError"))) :
    Live.retryBraintreeCall fn m d = Backup.retryBraintreeCall fn m d ∧
    (Live.retryBraintreeCall fn m d).map
        (fun r => (r.run.invocations.length, r.run.waits, r.outcome)) =
      (Backup.retryBraintreeCall fn m d).map
        (fun r => (r.run.invocations.length, r.run.waits, r.outcome)) := by
  have key : Live.retryBraintreeCall fn m d = Backup.retryBraintreeCall fn m d := by
    rw [Live.retryBraintreeCall, Backup.retryBraintreeCall, live_loop_eq, backup_loop_eq]
    apply retryLoop_agree
    intro j hj
    obtain ⟨hto, hcls⟩ := h j hj
    refine ⟨raceResult_in_time _ _ _ hto, ?_⟩
    intro e he
    obtain ⟨t, ht⟩ := raceResult_error_in_time _ _ e hto he
    exact (backup_isTimeout_of_words e (hcls e t ht)).symm
  exact ⟨key, by rw [key]⟩

/-- C22 at the scenario of the specification: two failures with message
`timeout` and type `unexpectedError`, then a success. -/
theorem versions_agree_on_transient_failures_witness :
    (∀ j : Nat, (j : Int) < 3 →
      timesOut ((fun i => if i < 2 then Settle.rejects ⟨"timeout", some "unexpectedError"⟩ 120
          else Settle.resolves "abc" 80 : Nat → Settle String) j) = false ∧
        ∀ e t, (fun i => if i < 2 then Settle.rejects ⟨"timeout", some "unexpectedError"⟩ 120
            else Settle.resolves "abc" 80 : Nat → Settle String) j = .rejects e t →
          (includes e.message "timeout" = true ∨ includes e.message "timed out" = true ∨
            (e.message ≠ "" ∧ e.type = some "unexpectedError"))) ∧
    Live.retryBraintreeCall
        (fun i => if i < 2 then Settle.rejects ⟨"timeout", some "unexpectedError"⟩ 120
          else Settle.resolves "abc" 80) 3 1000 =
      Backup.retryBraintreeCall
        (fun i => if i < 2 then Settle.rejects ⟨"timeout", some "unexpectedError"⟩ 120
          else Settle.resolves "abc" 80) 3 1000 :=
  have h : ∀ j : Nat, (j : Int) < 3 →
      timesOut ((fun i => if i < 2 then Settle.rejects ⟨"timeout", some "unexpectedError"⟩ 120
          else Settle.resolves "abc" 80 : Nat → Settle String) j) = false ∧
        ∀ e t, (fun i => if i < 2 then Settle.rejects ⟨"timeout", some "unexpectedError"⟩ 120
            else Settle.resolves "abc" 80 : Nat → Settle String) j = .rejects e t →
          (includes e.message "timeout" = true ∨ includes e.message "timed out" = true ∨
            (e.message ≠ "" ∧ e.type = some "unexpectedError")) := by
    intro j hj
    have hj3 : j < 3 := by omega
    interval_cases j
    · refine ⟨rfl, ?_⟩
      intro e t he
      simp only [show (0 : Nat) < 2 from by decide, if_true, Settle.rejects.injEq] at he
      rw [← he.1]
      exact Or.inl (by decide)
    · refine ⟨rfl, ?_⟩
      intro e t he
      simp only [show (1 : Nat) < 2 from by decide, if_true, Settle.rejects.injEq] at he
      rw [← he.1]
      exact Or.inl (by decide)
    · refine ⟨rfl, ?_⟩
      intro e t he
      simp at he
  ⟨h, (versions_agree_on_transient_failures _ 3 1000 h).1⟩

/-! ## The subscription status handler -/

theorem head?_filter_eq_find? {α : Type} (p : α → Bool) (l : List α) :
    (l.filter p).head? = l.find? p := by
  induction l with
  | nil => rfl
  | cons x xs ih =>
    by_cases hx : p x = true
    · simp [List.filter_cons, List.find?_cons, hx]
    · have hx2 : p x = false := by simpa using hx
      simp [List.filter_cons, List.find?_cons, hx2, ih]

/-- The subscription the handler picks, `subscriptions[0]` of the flattened
and filtered list, is the first active subscription in payment-method order. -/
theorem head?_subscriptions (pms : List PaymentMethod) :
    ((pms.flatMap (fun pm => pm.subscriptions.getD [])).filter Live.isActiveOrPending).head? =
      firstActiveSubscription pms := by
  rw [head?_filter_eq_find?]
  induction pms with
  | nil => rfl
  | cons pm rest ih =>
    rw [List.flatMap_cons, List.find?_append, ih]
    simp only [firstActiveSubscription]
    cases (pm.subscriptions.getD []).find? Live.isActiveOrPending <;> rfl

theorem isActiveOrPending_iff (sub : Subscription) :
    Live.isActiveOrPending sub = true ↔
      sub.status = .str "Active" ∨ sub.status = .str "Pending" := by
  unfold Live.isActiveOrPending
  cases h : sub.status <;> simp

theorem firstActiveSubscription_isSome (pms : List PaymentMethod) :
    (∃ sub, firstActiveSubscription pms = some sub) ↔
      ∃ pm ∈ pms, ∃ sub ∈ pm.subscriptions.getD [],
        sub.status = .str "Active" ∨ sub.status = .str "Pending" := by
  rw [← head?_subscriptions, head?_filter_eq_find?]
  constructor
  · rintro ⟨sub, h⟩
    have hp := List.find?_some h
    have hm := List.mem_of_find?_eq_some h
    obtain ⟨pm, hpm, hsub⟩ := List.mem_flatMap.1 hm
    exact ⟨pm, hpm, sub, hsub, (isActiveOrPending_iff sub).1 hp⟩
  · rintro ⟨pm, hpm, sub, hsub, hst⟩
    have hsome : ((pms.flatMap (fun pm => pm.subscriptions.getD [])).find?
        Live.isActiveOrPending).isSome = true := by
      rw [List.find?_isSome]
      exact ⟨sub, List.mem_flatMap.2 ⟨pm, hpm, hsub⟩, (isActiveOrPending_iff sub).2 hst⟩
    exact Option.isSome_iff_exists.1 hsome

/-- C21: for every `GET /api/subscription/status` request to `src/index.js`
with a `userId`: when the gateway returns a customer with its list of payment
methods, the response has status 200 and `success: true`, and it reports
`isPremium: true` if and only if some subscription of some payment method of
the customer has status `Active` or `Pending`; in that case the subscription
it reports (`id`, `status`, `planId`, `price`, `nextBillingDate`) is the first
such subscription in payment-method order then subscription order; otherwise
it reports status `free` with `isPremium: false`; and when the customer lookup
fails with type `notFoundError` the response has `success: true`, status
`new_user` and `isPremium: false`. -/
theorem subscription_status_decision (env : Env) (gw : Gateway)
    (query : List (String × JsValue)) (huser : truthy (field query "userId") = true) :
    (∀ customer pms t, gw.customerFind (field query "userId") 0 = .resolves customer t →
        customer.paymentMethods = some pms →
        ∃ r, Live.getSubscriptionStatus env gw query = some r ∧ r.response.status = 200 ∧
          r.response.bodyField "success" = .bool true ∧
          (r.response.subscriptionField "isPremium" = .bool true ↔
            ∃ pm ∈ pms, ∃ sub ∈ pm.subscriptions.getD [],
              sub.status = .str "Active" ∨ sub.status = .str "Pending") ∧
          (∀ sub, firstActiveSubscription pms = some sub →
            r.response.bodyField "subscription" =
              .obj [("id", sub.id), ("status", sub.status), ("planId", sub.planId),
                ("price", sub.price), ("nextBillingDate", sub.nextBillingDate),
                ("isPremium", .bool true)]) ∧
          (firstActiveSubscription pms = none →
            r.response.bodyField "subscription" =
              .obj [("status", .str "free"), ("plan", .str "free"),
                ("isPremium", .bool false)])) ∧
    (∀ e t, gw.customerFind (field query "userId") 0 = .rejects e t →
        e.type = some "notFoundError" →
        ∃ r, Live.getSubscriptionStatus env gw query = some r ∧ r.response.status = 200 ∧
          r.response.bodyField "success" = .bool true ∧
          r.response.bodyField "subscription" =
            .obj [("status", .str "new_user"), ("plan", .str "free"),
              ("isPremium", .bool false)]) := by
  constructor
  · intro customer pms t hfind hpm
    have hhead := head?_subscriptions pms
    have hsome := firstActiveSubscription_isSome pms
    simp only [Live.getSubscriptionStatus, huser, hfind, hpm]
    cases hl : (pms.flatMap (fun pm => pm.subscriptions.getD [])).filter
        Live.isActiveOrPending with
    | nil =>
      rw [hl] at hhead
      have hnone : firstActiveSubscription pms = none := hhead.symm
      refine ⟨_, rfl, rfl, rfl, ?_, ?_, fun _ => rfl⟩
      · constructor
        · intro h
          change JsValue.bool false = JsValue.bool true at h
          cases h
        · intro h
          obtain ⟨sub, hs⟩ := hsome.2 h
          rw [hnone] at hs
          cases hs
      · intro sub hs
        rw [hnone] at hs
        cases hs
    | cons first rest =>
      rw [hl] at hhead
      have hfirst : firstActiveSubscription pms = some first := hhead.symm
      refine ⟨_, rfl, rfl, rfl, ?_, ?_, ?_⟩
      · constructor
        · intro _
          exact hsome.1 ⟨first, hfirst⟩
        · intro _
          rfl
      · intro sub hs
        rw [hfirst] at hs
        cases hs
        rfl
      · intro hn
        rw [hfirst] at hn
        cases hn
  · intro e t hfind hty
    have hb : (e.type == some "notFoundError") = true := by simp [hty]
    simp only [Live.getSubscriptionStatus, huser, hfind, hb]
    exact ⟨_, rfl, rfl, rfl, rfl⟩

/-- C21 at a concrete input: a customer with two payment methods; the first
has a cancelled subscription, the second a pending one and an active one. -/
theorem subscription_status_decision_witness :
    truthy (field [("userId", JsValue.str "user-1")] "userId") = true ∧
    Live.getSubscriptionStatus Env.sample
        { Gateway.silent with
          customerFind := fun _ _ =>
            .resolves
              { paymentMethods := some
                  [{ token := .str "pm-1", nonce := .undefined,
                     subscriptions := some
                       [⟨.str "s1", .str "Canceled", .str "basic", .str "5.00", .null, .null⟩] },
                   { token := .str "pm-2", nonce := .undefined,
                     subscriptions := some
                       [⟨.str "s2", .str "Pending", .str "premium", .str "9.99",
                          .str "2025-02-01", .null⟩,
                        ⟨.str "s3", .str "Active", .str "premium", .str "9.99",
                          .str "2025-03-01", .null⟩] }] } 50 }
        [("userId", .str "user-1")] =
      some { response :=
               { status := 200
                 body := .obj [("success", .bool true),
                   ("subscription", .obj [("id", .str "s2"), ("status", .str "Pending"),
                     ("planId", .str "premium"), ("price", .str "9.99"),
                     ("nextBillingDate", .str "2025-02-01"), ("isPremium", .bool true)])] }
             calls := [.customerFind (.str "user-1")] } ∧
    ∃ r, Live.getSubscriptionStatus Env.sample
        { Gateway.silent with
          customerFind := fun _ _ => .rejects ⟨"Not Found", some "notFoundError"⟩ 50 }
        [("userId", .str "user-1")] = some r ∧ r.response.status = 200 ∧
      r.response.bodyField "success" = .bool true ∧
      r.response.bodyField "subscription" =
        .obj [("status", .str "new_user"), ("plan", .str "free"), ("isPremium", .bool false)] :=
  ⟨rfl, rfl,
    (subscription_status_decision Env.sample
      { Gateway.silent with
        customerFind := fun _ _ => .rejects ⟨"Not Found", some "notFoundError"⟩ 50 }
      [("userId", .str "user-1")] rfl).2 ⟨"Not Found", some "notFoundError"⟩ 50 rfl rfl⟩

/-! ## The statement through which a call settles -/

/-- Dropping the recorded statement gives the loop of `src/index.js`. -/
theorem live_loopTraced_fst {α : Type} (fn : Nat → Settle α) (m d : Int) :
    ∀ (fuel i : Nat) (s : Run) (le : Option JsError),
      (Live.loopTraced fn m d fuel i s le).map Prod.fst = Live.loop fn m d fuel i s le := by
  intro fuel
  induction fuel with
  | zero => intro i s le; rfl
  | succ fuel ih =>
    intro i s le
    simp only [Live.loopTraced, Live.loop]
    split
    · cases h : raceResult "Request timed out" (fn i) with
      | ok v => simp
      | error e =>
        by_cases hl : (i : Int) = m - 1
        · simp [hl]
        · simp [hl, ih]
    · rfl

/-- Dropping the recorded statement gives the loop of `src/index-backup.js`. -/
theorem backup_loopTraced_fst {α : Type} (fn : Nat → Settle α) (m d : Int) :
    ∀ (fuel i : Nat) (s : Run) (le : Option JsError),
      (Backup.loopTraced fn m d fuel i s le).map Prod.fst = Backup.loop fn m d fuel i s le := by
  intro fuel
  induction fuel with
  | zero => intro i s le; rfl
  | succ fuel ih =>
    intro i s le
    simp only [Backup.loopTraced, Backup.loop]
    split
    · cases h : raceResult "Request timed out after 90 seconds" (fn i) with
      | ok v => simp
      | error e =>
        by_cases hl : (i : Int) = m - 1
        · simp [hl]
        · by_cases hc : Backup.isTimeout e
          · simp [hl, hc, ih]
          · simp [hl, hc]
    · rfl

/-- From a loop index inside the loop bound the loop of `src/index.js`
settles inside its body. -/
theorem live_loopTraced_in_body {α : Type} (fn : Nat → Settle α) (m d : Int) :
    ∀ (fuel i : Nat) (s : Run) (le : Option JsError), (i : Int) < m → m.toNat < fuel + i →
      ∃ r x, Live.loopTraced fn m d fuel i s le = some (r, x) ∧ x ≠ .trailingThrow := by
  intro fuel
  induction fuel with
  | zero => intro i s le hi hf; omega
  | succ fuel ih =>
    intro i s le hi hf
    simp only [Live.loopTraced, if_pos hi]
    cases h : raceResult "Request timed out" (fn i) with
    | ok v => exact ⟨_, _, rfl, by decide⟩
    | error e =>
      by_cases hl : (i : Int) = m - 1
      · simp only [hl, decide_True, if_true]
        exact ⟨_, _, rfl, by decide⟩
      · simp only [hl, decide_False, Bool.false_eq_true, if_false]
        exact ih (i + 1) _ _ (by push_cast; omega) (by omega)

/-- From a loop index inside the loop bound the loop of
`src/index-backup.js` settles inside its body. -/
theorem backup_loopTraced_in_body {α : Type} (fn : Nat → Settle α) (m d : Int) :
    ∀ (fuel i : Nat) (s : Run) (le : Option JsError), (i : Int) < m → m.toNat < fuel + i →
      ∃ r x, Backup.loopTraced fn m d fuel i s le = some (r, x) ∧ x ≠ .trailingThrow := by
  intro fuel
  induction fuel with
  | zero => intro i s le hi hf; omega
  | succ fuel ih =>
    intro i s le hi hf
    simp only [Backup.loopTraced, if_pos hi]
    cases h : raceResult "Request timed out after 90 seconds" (fn i) with
    | ok v => exact ⟨_, _, rfl, by decide⟩
    | error e =>
      by_cases hl : (i : Int) = m - 1
      · simp only [hl, decide_True, if_true]
        exact ⟨_, _, rfl, by decide⟩
      · simp only [hl, decide_False, Bool.false_eq_true, if_false]
        by_cases hc : Backup.isTimeout e = true
        · simp only [hc, Bool.not_true, Bool.false_eq_true, if_false]
          exact ih (i + 1) _ _ (by push_cast; omega) (by omega)
        · have hc2 : Backup.isTimeout e = false := by simpa using hc
          simp only [hc2, Bool.not_false, if_true]
          exact ⟨_, _, rfl, by decide⟩

/-- C23: in `retryBraintreeCall` (either version, `maxRetries` an integer)
the statement `throw lastError` after the loop is the one through which the
call settles if and only if `maxRetries ≤ 0`; for `maxRetries ≥ 1` the call
settles inside the loop body; and when `maxRetries ≤ 0` the operation is never
invoked and the value thrown is `undefined`. -/
theorem trailing_throw_reachability {α : Type} (fn : Nat → Settle α) (m d : Int) :
    (∃ r x, Live.loopTraced fn m d (m.toNat + 1) 0 Run.init none = some (r, x) ∧
      Live.retryBraintreeCall fn m d = some r ∧
      (x = .trailingThrow ↔ m ≤ 0) ∧
      (m ≤ 0 → r.run.invocations = [] ∧ r.outcome = .thrown none)) ∧
    (∃ r x, Backup.loopTraced fn m d (m.toNat + 1) 0 Run.init none = some (r, x) ∧
      Backup.retryBraintreeCall fn m d = some r ∧
      (x = .trailingThrow ↔ m ≤ 0) ∧
      (m ≤ 0 → r.run.invocations = [] ∧ r.outcome = .thrown none)) := by
  constructor
  · rcases le_or_lt m 0 with hm | hm
    · have h0 : ¬ (((0 : Nat) : Int) < m) := by push_cast; omega
      have ht : Live.loopTraced fn m d (m.toNat + 1) 0 Run.init none =
          some ({ outcome := .thrown none, run := Run.init }, .trailingThrow) := by
        simp only [Live.loopTraced, if_neg h0]
      refine ⟨_, _, ht, ?_, ⟨fun _ => hm, fun _ => rfl⟩, fun _ => ⟨rfl, rfl⟩⟩
      rw [Live.retryBraintreeCall, ← live_loopTraced_fst, ht]
      rfl
    · obtain ⟨r, x, ht, hx⟩ :=
        live_loopTraced_in_body fn m d (m.toNat + 1) 0 Run.init none (by push_cast; omega)
          (by omega)
      refine ⟨r, x, ht, ?_, ⟨fun h => absurd h hx, fun h => by omega⟩, fun h => by omega⟩
      rw [Live.retryBraintreeCall, ← live_loopTraced_fst, ht]
      rfl
  · rcases le_or_lt m 0 with hm | hm
    · have h0 : ¬ (((0 : Nat) : Int) < m) := by push_cast; omega
      have ht : Backup.loopTraced fn m d (m.toNat + 1) 0 Run.init none =
          some ({ outcome := .thrown none, run := Run.init }, .trailingThrow) := by
        simp only [Backup.loopTraced, if_neg h0]
      refine ⟨_, _, ht, ?_, ⟨fun _ => hm, fun _ => rfl⟩, fun _ => ⟨rfl, rfl⟩⟩
      rw [Backup.retryBraintreeCall, ← backup_loopTraced_fst, ht]
      rfl
    · obtain ⟨r, x, ht, hx⟩ :=
        backup_loopTraced_in_body fn m d (m.toNat + 1) 0 Run.init none (by push_cast; omega)
          (by omega)
      refine ⟨r, x, ht, ?_, ⟨fun h => absurd h hx, fun h => by omega⟩, fun h => by omega⟩
      rw [Backup.retryBraintreeCall, ← backup_loopTraced_fst, ht]
      rfl

end ParkingBackend
